import Mathlib

/-!
Verification development for the Jira MCP adapter.

The adapter source (TypeScript) is shallowly embedded below: strings are
modelled as lists of characters, loosely typed JSON runtime values as the
inductive type JsVal, thrown exceptions as Except, and the opaque network
request operation as explicit environment records holding the upstream
responses.  Platform builtins that the adapter calls (JSON.parse and
friends) are threaded through as explicit function parameters.
-/

namespace JiraMcp

/-- Strings are modelled as lists of characters. -/
abbrev Str := List Char

/-- Apostrophe character, used when assembling error message texts. -/
def apos : Char := Char.ofNat 39

/-- Characters treated as whitespace by the JavaScript string trim and by
the regular expression class backslash-s, restricted to the ASCII range
(all inputs in this development are ASCII). -/
def isJsWs (c : Char) : Bool :=
  c = ' ' || c = '\t' || c = '\n' || c = '\r' || c = '\x0b' || c = '\x0c'

/-- JavaScript String.prototype.trim over the modelled character set. -/
def jsTrim (s : Str) : Str :=
  ((s.dropWhile (fun c => isJsWs c)).reverse.dropWhile (fun c => isJsWs c)).reverse

/-- JavaScript toLowerCase, ASCII fragment (Char.toLower lowers A-Z). -/
def lowerStr (s : Str) : Str := s.map Char.toLower

/-- Option-lifted lowercasing, mirroring value?.toLowerCase(). -/
def optLower (s : Option Str) : Option Str := s.map lowerStr

/-- Array.prototype.join with a separator. -/
def joinSep (sep : Str) : List Str → Str
  | [] => []
  | [x] => x
  | x :: xs => x ++ sep ++ joinSep sep xs

/-- Decimal rendering of a natural number, as JS String(n). -/
def natToStr (n : Nat) : Str := (Nat.repr n).data

/-- Decimal rendering of an integer, as JS String(n). -/
def intToStr (n : Int) : Str := (Int.repr n).data

/-- normalizeString from the adapter: non-strings become undefined, a
string is trimmed and empty results become undefined.  The non-string
cases are handled at call sites by the Option type. -/
def normalizeString (value : Option Str) : Option Str :=
  match value with
  | none => none
  | some s =>
    let normalized := jsTrim s
    if normalized.length > 0 then some normalized else none

/-- Loosely typed JSON runtime value (the unknown type of the source).
Numbers are restricted to integers; no claim exercises fractional
values. -/
inductive JsVal where
  | null
  | bool (b : Bool)
  | num (n : Int)
  | str (s : Str)
  | arr (elems : List JsVal)
  | obj (fields : List (Str × JsVal))

/-- Property lookup on the field list of an object value (JavaScript
object keys are unique; the first match is taken). -/
def objLookup (fields : List (Str × JsVal)) (key : Str) : Option JsVal :=
  match fields with
  | [] => none
  | (k, v) :: rest => if k = key then some v else objLookup rest key

/-- Property access on an object value that only accepts string-typed
properties, as the pattern normalizeString(record.key) does. -/
def strProp (fields : List (Str × JsVal)) (key : Str) : Option Str :=
  match objLookup fields key with
  | some (.str s) => some s
  | _ => none

/-- JavaScript truthiness of a runtime value. -/
def truthy : JsVal → Bool
  | .null => false
  | .bool b => b
  | .num n => n ≠ 0
  | .str s => s ≠ []
  | .arr _ => true
  | .obj _ => true

/-- typeof value === "object" (arrays included; null is excluded at the
call sites through the truthiness test). -/
def isObjectTypeof : JsVal → Bool
  | .null => true
  | .arr _ => true
  | .obj _ => true
  | _ => false

/-- Block node types of the document renderer. -/
def blockTypes : List Str :=
  [("paragraph".data), ("heading".data), ("codeBlock".data),
   ("blockquote".data), ("listItem".data)]

/-- Whether the (optional, string-typed) node type is one of the block
types that emit a trailing newline. -/
def isBlockType (t : Option Str) : Bool :=
  match t with
  | some s => blockTypes.contains s
  | none => false

mutual
/-- renderNode from adf.ts over loose runtime values.  A text node with a
non-string text property renders as empty (the TS node type forbids such
values). -/
def renderNode : JsVal → Str
  | .obj fields =>
    let t := strProp fields ("type".data)
    if t = some ("text".data) then
      match objLookup fields ("text".data) with
      | some (.str s) => s
      | _ => []
    else if t = some ("hardBreak".data) then
      ['\n']
    else
      let children := renderContent fields
      if isBlockType t then children ++ ['\n'] else children
  | _ => []

/-- The child rendering Array.isArray(node.content) ?
node.content.map(renderNode).join(empty) : empty, fused with the lookup of
the content property so that the recursion is structural. -/
def renderContent : List (Str × JsVal) → Str
  | [] => []
  | (k, v) :: rest =>
    if k = ("content".data) then
      match v with
      | .arr xs => renderList xs
      | _ => []
    else renderContent rest

/-- Concatenated rendering of a node list. -/
def renderList : List JsVal → Str
  | [] => []
  | x :: xs => renderNode x ++ renderList xs
end

/-- CRLF normalization: text.replace with the global CRLF pattern. -/
def normalizeCrlf : Str → Str
  | [] => []
  | [c] => [c]
  | c1 :: c2 :: rest =>
    if c1 = '\r' ∧ c2 = '\n' then '\n' :: normalizeCrlf rest
    else c1 :: normalizeCrlf (c2 :: rest)

/-- String.prototype.split on the newline character. -/
def splitNl : Str → List Str
  | [] => [[]]
  | c :: rest =>
    if c = '\n' then [] :: splitNl rest
    else
      match splitNl rest with
      | [] => [[c]]
      | line :: lines => (c :: line) :: lines

/-- Collapsing of three or more consecutive newlines to exactly two (the
replace of the newline-run pattern in adfToPlainText). -/
def collapseNl : Str → Str
  | c1 :: c2 :: c3 :: rest =>
    if c1 = '\n' ∧ c2 = '\n' ∧ c3 = '\n' then collapseNl (c2 :: c3 :: rest)
    else c1 :: collapseNl (c2 :: c3 :: rest)
  | short => short

/-- One paragraph block per source line; a paragraph for an empty line has
no children. -/
def paragraphNode (line : Str) : JsVal :=
  .obj [(("type".data), .str ("paragraph".data)),
        (("content".data),
          .arr (if line = [] then []
                else [.obj [(("type".data), .str ("text".data)),
                            (("text".data), .str line)]]))]

/-- plainTextToAdf from adf.ts. -/
def plainTextToAdf (text : Str) : JsVal :=
  .obj [(("type".data), .str ("doc".data)),
        (("version".data), .num 1),
        (("content".data), .arr ((splitNl (normalizeCrlf text)).map paragraphNode))]

/-- adfToPlainText from adf.ts: non-objects (and null, which is falsy)
yield the empty string; otherwise render, collapse newline runs, trim. -/
def adfToPlainText (document : JsVal) : Str :=
  if truthy document && isObjectTypeof document then
    jsTrim (collapseNl (renderNode document))
  else []


/-! ## Runtime error model and upstream response shapes -/

/-- A thrown value: either a plain Error (message) or a JiraApiError
carrying the upstream status code and response body. -/
inductive JsError where
  | err (message : Str)
  | api (status : Nat) (message : Str) (body : Str)
deriving DecidableEq

/-- error instanceof JiraApiError and error.status === 404. -/
def is404 : JsError → Bool
  | .api 404 _ _ => true
  | _ => false

/-- Except.isOk as a boolean, for stating that a call succeeded. -/
def isOkE {α : Type} : Except JsError α → Bool
  | .ok _ => true
  | .error _ => false

/-- The ok payload of an Except, if any. -/
def okOf {α : Type} : Except JsError α → Option α
  | .ok a => some a
  | .error _ => none

structure JiraIssueTypeMeta where
  id : Option Str
  name : Option Str
  description : Option Str
  subtask : Option Bool
deriving DecidableEq

structure JiraProjectResponse where
  id : Option Str
  key : Option Str
  name : Option Str
  issueTypes : Option (List JiraIssueTypeMeta)
deriving DecidableEq

structure JiraVersion where
  id : Option Str
  name : Option Str
  released : Option Bool
  archived : Option Bool
  releaseDate : Option Str
deriving DecidableEq

structure JiraTransitionTo where
  id : Option Str
  name : Option Str
deriving DecidableEq

/-- A transition; the source field named to (a reserved word here) is
modelled as toRef. -/
structure JiraTransition where
  id : Option Str
  name : Option Str
  toRef : Option JiraTransitionTo
deriving DecidableEq

structure JiraIssueLinkType where
  id : Option Str
  name : Option Str
  inward : Option Str
  outward : Option Str
deriving DecidableEq

/-- A raw issue record: its key and its loose fields object. -/
structure JiraIssueResponse where
  key : Str
  fields : List (Str × JsVal)

/-! ## Write-time field and value resolvers -/

/-- The error text for an unknown issue type, carrying the names of all
known issue types of the project. -/
def unknownIssueTypeMessage (projectKey requested : Str)
    (issueTypes : List JiraIssueTypeMeta) : Str :=
  let available :=
    joinSep (", ".data) ((issueTypes.filterMap (fun it => it.name)).filter
      (fun s => !s.isEmpty))
  ("Unknown issue type ".data) ++ [apos] ++ requested ++ [apos] ++
    (" for project ".data) ++ projectKey ++ (". Available: ".data) ++
    (if available = [] then ("(none)".data) else available) ++ (".".data)

/-- Whether an issue type entry matches the requested value: its trimmed
id equals the raw requested value, or its trimmed name equals the
requested value case-insensitively. -/
def issueTypeMatches (requested : Str) (it : JiraIssueTypeMeta) : Bool :=
  (it.id.map jsTrim) == some requested ||
    (it.name.map (fun s => lowerStr (jsTrim s))) == some (lowerStr (jsTrim requested))

/-- resolveIssueTypeId: find the first issue type whose id or name
matches, fail with the list of valid names otherwise; a match without a
truthy id also fails. -/
def resolveIssueTypeId (project : JiraProjectResponse) (projectKey requested : Str) :
    Except JsError Str :=
  let issueTypes := project.issueTypes.getD []
  match issueTypes.find? (fun it => issueTypeMatches requested it) with
  | some it =>
    match it.id with
    | some id =>
      if id = [] then .error (.err (unknownIssueTypeMessage projectKey requested issueTypes))
      else .ok id
    | none => .error (.err (unknownIssueTypeMessage projectKey requested issueTypes))
  | none => .error (.err (unknownIssueTypeMessage projectKey requested issueTypes))

/-- The error text for unknown versions; it lists the unresolved values,
not the catalog. -/
def unknownVersionsMessage (missing : List Str) : Str :=
  ("Unknown project version(s): ".data) ++ joinSep (", ".data) missing ++
    (". Use exact Jira version names or ids.".data)

/-- Lookup in an assoc list with Map.set overwrite semantics: the last
entry with the key wins. -/
def lastAssoc (entries : List (Str × JiraVersion)) (key : Str) : Option JiraVersion :=
  match entries with
  | [] => none
  | (k, v) :: rest =>
    match lastAssoc rest key with
    | some r => some r
    | none => if k = key then some v else none

/-- Option value kept only when it is a truthy (non-empty) string. -/
def truthyStr : Option Str → Option Str
  | some s => if s = [] then none else some s
  | none => none

/-- The byId map of resolveVersionIds (only versions with truthy ids). -/
def versionsById (versions : List JiraVersion) : List (Str × JiraVersion) :=
  versions.filterMap (fun v =>
    match v.id with
    | some i => if i = [] then none else some (i, v)
    | none => none)

/-- The byName map of resolveVersionIds (keys lowercased). -/
def versionsByName (versions : List JiraVersion) : List (Str × JiraVersion) :=
  versions.filterMap (fun v =>
    match v.name with
    | some n => if n = [] then none else some (lowerStr n, v)
    | none => none)

/-- Per-value resolution: exact id lookup first, then case-insensitive
name lookup; each match must carry a truthy id. -/
def resolveOneVersion (versions : List JiraVersion) (value : Str) : Option Str :=
  match truthyStr (((lastAssoc (versionsById versions) value)).bind (fun v => v.id)) with
  | some i => some i
  | none =>
    truthyStr (((lastAssoc (versionsByName versions) (lowerStr value))).bind (fun v => v.id))

/-- The resolution loop: resolved ids in insertion order without
duplicates, and the unresolved values in request order. -/
def resolveVersionsAcc (versions : List JiraVersion) (values resolved missing : List Str) :
    List Str × List Str :=
  match values with
  | [] => (resolved, missing)
  | value :: rest =>
    match resolveOneVersion versions value with
    | some i =>
      resolveVersionsAcc versions rest
        (if i ∈ resolved then resolved else resolved ++ [i]) missing
    | none => resolveVersionsAcc versions rest resolved (missing ++ [value])

/-- resolveVersionIds: trim and drop empty requested values, resolve each
by id then name, abort listing the unresolved values if any. -/
def resolveVersionIds (versions : List JiraVersion) (requested : Option (List Str)) :
    Except JsError (List Str) :=
  let normalizedRequested := ((requested.getD []).map jsTrim).filter (fun s => s.length > 0)
  if normalizedRequested.isEmpty then .ok []
  else
    match resolveVersionsAcc versions normalizedRequested [] [] with
    | (resolved, missing) =>
      if missing.isEmpty then .ok resolved
      else .error (.err (unknownVersionsMessage missing))

/-- Priority write payload: either an id reference or a name reference. -/
inductive PriorityPayload where
  | byId (id : Str)
  | byName (name : Str)
deriving DecidableEq

/-- The all-digits test of buildPriorityPayload. -/
def isAllDigits (s : Str) : Bool := !s.isEmpty && s.all (fun c => c.isDigit)

/-- buildPriorityPayload: trimmed empty or absent yields no payload;
all-digit values are sent as ids, anything else as a name.  No catalog is
consulted and no error is possible. -/
def buildPriorityPayload (priority : Option Str) : Option PriorityPayload :=
  match priority.map jsTrim with
  | none => none
  | some normalized =>
    if normalized = [] then none
    else if isAllDigits normalized then some (.byId normalized)
    else some (.byName normalized)

/-- buildPriorityUpdateValue: three-state (unspecified, cleared, set). -/
def buildPriorityUpdateValue (priority : Option (Option Str)) :
    Option (Option PriorityPayload) :=
  match priority with
  | none => none
  | some none => some none
  | some (some s) =>
    let normalized := jsTrim s
    if normalized = [] then some none
    else if isAllDigits normalized then some (some (.byId normalized))
    else some (some (.byName normalized))

/-! ## Status transition resolution -/

structure IssueTransitionResult where
  requestedStatus : Str
  applied : Bool
  transitionId : Option Str
  targetStatus : Option Str
  reason : Option Str
deriving DecidableEq

/-- The predicate of the find over transitions: the requested value
(already trimmed and lowercased) equals the lowercased transition id,
transition name, or destination status name. -/
def matchesTransition (normalizedRequested : Str) (t : JiraTransition) : Bool :=
  optLower t.id == some normalizedRequested ||
    optLower t.name == some normalizedRequested ||
    optLower (t.toRef.bind (fun x => x.name)) == some normalizedRequested

/-- transition.to?.name ?? transition.name (nullish coalescing). -/
def transitionLabel (t : JiraTransition) : Option Str :=
  match t.toRef.bind (fun x => x.name) with
  | some s => some s
  | none => t.name

/-- The reason string of the non-applied transition result, listing the
truthy target labels of all transitions. -/
def noMatchReason (transitions : List JiraTransition) : Str :=
  let available :=
    joinSep (", ".data) ((transitions.filterMap transitionLabel).filter (fun s => !s.isEmpty))
  ("No matching transition found. Available target statuses: ".data) ++
    (if available = [] then ("(none)".data) else available) ++ (".".data)

/-- The structured non-applied result for a requested status with no
matching transition. -/
def noMatchResult (requestedStatus : Str) (transitions : List JiraTransition) :
    IssueTransitionResult :=
  { requestedStatus := requestedStatus, applied := false, transitionId := none,
    targetStatus := none, reason := some (noMatchReason transitions) }

/-- tryTransitionIssue: trim the requested status (empty is a non-applied
result), find the first transition matching on id, name, or destination
name case-insensitively; a missing match or a match without a truthy id
yields the non-applied result; otherwise the transition request is posted
and an applied result returned.  The posted request outcome is supplied
by the environment. -/
def tryTransitionIssue (transitions : List JiraTransition)
    (postOutcome : Except JsError Unit) (status : Str) :
    Except JsError IssueTransitionResult :=
  let requestedStatus := jsTrim status
  if requestedStatus = [] then
    .ok { requestedStatus := status, applied := false, transitionId := none,
          targetStatus := none, reason := some ("Requested status is empty.".data) }
  else
    let normalizedRequested := lowerStr requestedStatus
    match transitions.find? (fun t => matchesTransition normalizedRequested t) with
    | some t =>
      match t.id with
      | some tid =>
        if tid = [] then .ok (noMatchResult requestedStatus transitions)
        else
          match postOutcome with
          | .error e => .error e
          | .ok _ =>
            .ok { requestedStatus := requestedStatus, applied := true,
                  transitionId := some tid,
                  targetStatus :=
                    match transitionLabel t with
                    | some s => if s = [] then none else some s
                    | none => none,
                  reason := none }
      | none => .ok (noMatchResult requestedStatus transitions)
    | none => .ok (noMatchResult requestedStatus transitions)

/-! ## Link relation resolution -/

/-- normalizeLabelForMatch: lowercase and strip every character that is
not an ASCII lowercase letter or digit. -/
def normalizeLabelForMatch (value : Option Str) : Str :=
  match value with
  | none => []
  | some s =>
    (lowerStr s).filter (fun c =>
      (97 ≤ c.toNat && c.toNat ≤ 122) || (48 ≤ c.toNat && c.toNat ≤ 57))

/-- labelAliasSet: the normalized key, plus the suffix after the leading
is when the key starts with is and is longer than two characters
(insertion-ordered set). -/
def labelAliasSet (value : Str) : List Str :=
  let normalized := normalizeLabelForMatch (some value)
  let aliases := if normalized = [] then [] else [normalized]
  if ("is".data).isPrefixOf normalized ∧ normalized.length > 2 then
    if normalized.drop 2 ∈ aliases then aliases else aliases ++ [normalized.drop 2]
  else aliases

/-- Non-empty intersection test over the alias sets. -/
def intersects (left right : List Str) : Bool :=
  left.any (fun v => right.contains v)

inductive LinkDirection where
  | outward
  | inward
deriving DecidableEq

structure ResolvedLinkPayload where
  relation : Str
  linkType : Str
  direction : LinkDirection
  outwardIssueKey : Str
  inwardIssueKey : Str
deriving DecidableEq

/-- One candidate link type: skip it when it has no truthy name; else
test the requested aliases against the outward label, then the inward
label, then the type name, producing the corresponding payload. -/
def linkTypeStep (issueKey targetIssueKey : Str) (requestedAliases : List Str)
    (lt : JiraIssueLinkType) : Option ResolvedLinkPayload :=
  match normalizeString lt.name with
  | none => none
  | some name =>
    let outward := normalizeString lt.outward
    let inward := normalizeString lt.inward
    let owMatch : Option ResolvedLinkPayload :=
      match outward with
      | some o =>
        if intersects requestedAliases (labelAliasSet o) then
          some { relation := o, linkType := name, direction := .outward,
                 outwardIssueKey := issueKey, inwardIssueKey := targetIssueKey }
        else none
      | none => none
    match owMatch with
    | some p => some p
    | none =>
      let inMatch : Option ResolvedLinkPayload :=
        match inward with
        | some i =>
          if intersects requestedAliases (labelAliasSet i) then
            some { relation := i, linkType := name, direction := .inward,
                   outwardIssueKey := targetIssueKey, inwardIssueKey := issueKey }
          else none
        | none => none
      match inMatch with
      | some p => some p
      | none =>
        if intersects requestedAliases (labelAliasSet name) then
          some { relation := outward.getD name, linkType := name, direction := .outward,
                 outwardIssueKey := issueKey, inwardIssueKey := targetIssueKey }
        else none

/-- The loop over candidate link types in upstream order; skipping and
non-matching candidates both fall through to the rest. -/
def resolveLinkLoop (issueKey targetIssueKey : Str) (requestedAliases : List Str) :
    List JiraIssueLinkType → Option ResolvedLinkPayload
  | [] => none
  | lt :: rest =>
    match linkTypeStep issueKey targetIssueKey requestedAliases lt with
    | some p => some p
    | none => resolveLinkLoop issueKey targetIssueKey requestedAliases rest

/-- Insertion-ordered deduplication (the new Set spread). -/
def dedupStrAux (seen : List Str) : List Str → List Str
  | [] => []
  | x :: xs => if x ∈ seen then dedupStrAux seen xs else x :: dedupStrAux (x :: seen) xs

def dedupStr (l : List Str) : List Str := dedupStrAux [] l

/-- The unknown-relation error text: the first forty distinct truthy
outward, inward and name labels over all candidates. -/
def unknownRelationMessage (relation : Str) (linkTypes : List JiraIssueLinkType) : Str :=
  let availableRelations :=
    (linkTypes.flatMap (fun lt => [lt.outward, lt.inward, lt.name])).filterMap
      (fun v => normalizeString v)
  let preview := joinSep (", ".data) ((dedupStr availableRelations).take 40)
  ("Unknown link relation ".data) ++ [apos] ++ relation ++ [apos] ++
    (". Available relations: ".data) ++
    (if preview = [] then ("(none)".data) else preview) ++ (".".data)

/-- resolveIssueLinkPayload: expand the requested label into its alias
set, walk the candidates in upstream order, and fail with the enumerated
labels when nothing matches. -/
def resolveIssueLinkPayload (issueKey targetIssueKey relation : Str)
    (linkTypes : List JiraIssueLinkType) : Except JsError ResolvedLinkPayload :=
  let requestedAliases := labelAliasSet relation
  match resolveLinkLoop issueKey targetIssueKey requestedAliases linkTypes with
  | some p => .ok p
  | none => .error (.err (unknownRelationMessage relation linkTypes))

/-! ## JQL building -/

/-- quoteJqlLiteral: double the backslashes, then escape the double
quotes, then wrap in double quotes. -/
def quoteJqlLiteral (value : Str) : Str :=
  let escaped :=
    ((value.flatMap (fun c => if c = '\\' then ['\\', '\\'] else [c])).flatMap
      (fun c => if c = '"' then ['\\', '"'] else [c]))
  ['"'] ++ escaped ++ ['"']

/-- buildJqlListClause: trim the values and drop empties; none left gives
no clause, one gives an equality clause, several give an IN clause. -/
def buildJqlListClause (field : Str) (values : Option (List Str)) : Option Str :=
  let normalized := ((values.getD []).map jsTrim).filter (fun v => v.length > 0)
  if normalized.length = 0 then none
  else if normalized.length = 1 then
    match normalized.head? with
    | some first =>
      if first = [] then none
      else some (field ++ (" = ".data) ++ quoteJqlLiteral first)
    | none => none
  else
    some (field ++ (" IN (".data) ++
      joinSep (", ".data) (normalized.map quoteJqlLiteral) ++ (")".data))

/-- ASCII word characters (the regex word-boundary class). -/
def isWordChar (c : Char) : Bool :=
  (97 ≤ c.toNat && c.toNat ≤ 122) || (65 ≤ c.toNat && c.toNat ≤ 90) ||
    (48 ≤ c.toNat && c.toNat ≤ 57) || c = '_'

/-- Match of the order-by pattern (word boundary, order, whitespace run,
by, word boundary) at the head of an already lowercased string, given the
previous character. -/
def matchOrderByAt (prev : Option Char) (s : Str) : Bool :=
  (match prev with
   | some p => !isWordChar p
   | none => true) &&
  (match s with
   | 'o' :: 'r' :: 'd' :: 'e' :: 'r' :: rest =>
     let ws := rest.takeWhile (fun c => isJsWs c)
     let rest2 := rest.dropWhile (fun c => isJsWs c)
     ws.length > 0 &&
       (match rest2 with
        | 'b' :: 'y' :: rest3 =>
          match rest3 with
          | [] => true
          | c :: _ => !isWordChar c
        | _ => false)
   | _ => false)

def hasOrderByAux (prev : Option Char) (s : Str) : Bool :=
  matchOrderByAt prev s ||
    (match s with
     | [] => false
     | c :: rest => hasOrderByAux (some c) rest)

/-- The case-insensitive order-by detection regex test. -/
def hasOrderBy (s : Str) : Bool := hasOrderByAux none (lowerStr s)

/-- buildStrictJql: trim, reject empty, and append the default ordering
unless an ORDER BY is already present. -/
def buildStrictJql (rawJql : Str) : Except JsError Str :=
  let jql := jsTrim rawJql
  if jql = [] then .error (.err ("jql cannot be empty.".data))
  else if hasOrderBy jql then .ok jql
  else .ok (jql ++ (" ORDER BY updated DESC".data))

/-! ## Loose scalar extraction and issue projection -/

/-- The first candidate property that normalizes to a truthy string. -/
def firstTruthyCandidate (kvs : List (Str × JsVal)) : List Str → Option Str
  | [] => none
  | k :: ks =>
    match normalizeString (strProp kvs k) with
    | some s => some s
    | none => firstTruthyCandidate kvs ks

mutual
/-- extractScalarValue: strings trim (empty becomes null), numbers and
booleans stringify, arrays comma-join their extracted elements, objects
pick the first truthy of name, value, label, displayName, key, id. -/
def extractScalarValue : JsVal → Option Str
  | .null => none
  | .str s =>
    let normalized := jsTrim s
    if normalized = [] then none else some normalized
  | .num n => some (intToStr n)
  | .bool b => some (if b then ("true".data) else ("false".data))
  | .arr xs =>
    let rendered := extractScalarList xs
    if rendered = [] then none else some (joinSep (", ".data) rendered)
  | .obj kvs =>
    firstTruthyCandidate kvs
      [("name".data), ("value".data), ("label".data), ("displayName".data),
       ("key".data), ("id".data)]

/-- The array case map-and-filter of extractScalarValue. -/
def extractScalarList : List JsVal → List Str
  | [] => []
  | x :: xs =>
    match extractScalarValue x with
    | some s => s :: extractScalarList xs
    | none => extractScalarList xs
end

/-- Scalar extraction of a possibly absent value. -/
def extractScalarOpt : Option JsVal → Option Str
  | some v => extractScalarValue v
  | none => none

/-- Child property of a possibly absent object value. -/
def propOf (v : Option JsVal) (key : Str) : Option JsVal :=
  match v with
  | some (.obj fs) => objLookup fs key
  | _ => none

/-- String child property of a possibly absent object value. -/
def propStr (v : Option JsVal) (key : Str) : Option Str :=
  match v with
  | some (.obj fs) => strProp fs key
  | _ => none

/-- extractNameList: arrays map through scalar extraction, truthy results
kept; everything else is empty. -/
def extractNameList (value : Option JsVal) : List Str :=
  match value with
  | some (.arr xs) => (extractScalarList xs).filter (fun s => !s.isEmpty)
  | _ => []

/-- extractUserName: first truthy of displayName, name, emailAddress,
accountId on an object value. -/
def extractUserName (value : Option JsVal) : Option Str :=
  match value with
  | some (.obj user) =>
    firstTruthyCandidate user
      [("displayName".data), ("name".data), ("emailAddress".data), ("accountId".data)]
  | _ => none

/-- First match of the sprint-name capture pattern (name= followed by at
least one character that is neither a comma nor a closing bracket),
scanning case-insensitively like the regex engine. -/
def sprintNameCapture : Str → Option Str
  | [] => none
  | c :: rest =>
    if lowerStr (List.take 5 (c :: rest)) = ("name=".data) then
      let cap := (List.drop 5 (c :: rest)).takeWhile (fun ch => !(ch = ',' || ch = ']'))
      if cap = [] then sprintNameCapture rest else some cap
    else sprintNameCapture rest

/-- The loop of extractSprintNames over the entries, with the names set
in insertion order. -/
def sprintNamesLoop : List (Option JsVal) → List Str → List Str
  | [], acc => acc
  | e :: rest, acc =>
    match normalizeString (propStr e ("name".data)) with
    | some n => sprintNamesLoop rest (if n ∈ acc then acc else acc ++ [n])
    | none =>
      let rawValue := normalizeString (match e with | some (.str s) => some s | _ => none)
      match rawValue with
      | none => sprintNamesLoop rest acc
      | some raw =>
        match sprintNameCapture raw with
        | some cap =>
          let n := jsTrim cap
          sprintNamesLoop rest (if n ∈ acc then acc else acc ++ [n])
        | none => sprintNamesLoop rest acc

/-- extractSprintNames: direct name properties first, else the textual
sprint representation is scanned for a name= capture. -/
def extractSprintNames (value : Option JsVal) : List Str :=
  let entries : List (Option JsVal) :=
    match value with
    | some (.arr xs) => xs.map some
    | some v => [some v]
    | none => [none]
  sprintNamesLoop entries []

structure CompactIssueRef where
  key : Str
  summary : Str
  status : Option Str
  issueType : Option Str
deriving DecidableEq

/-- toCompactIssueRef: requires a truthy key; summary, status name and
issue type name are best effort. -/
def toCompactIssueRef (value : Option JsVal) : Option CompactIssueRef :=
  match value with
  | some (.obj issue) =>
    match normalizeString (strProp issue ("key".data)) with
    | some key =>
      let f := objLookup issue ("fields".data)
      some { key := key,
             summary := (normalizeString (propStr f ("summary".data))).getD [],
             status := normalizeString (propStr (propOf f ("status".data)) ("name".data)),
             issueType := normalizeString (propStr (propOf f ("issuetype".data)) ("name".data)) }
    | none => none
  | _ => none

/-- The dedup-by-key loop of extractIssueRefsFromArray. -/
def extractRefsLoop (seen : List Str) : List JsVal → List CompactIssueRef
  | [] => []
  | e :: rest =>
    match toCompactIssueRef (some e) with
    | some r =>
      if r.key ∈ seen then extractRefsLoop seen rest
      else r :: extractRefsLoop (r.key :: seen) rest
    | none => extractRefsLoop seen rest

def extractIssueRefsFromArray (value : Option JsVal) : List CompactIssueRef :=
  match value with
  | some (.arr entries) => extractRefsLoop [] entries
  | _ => []

structure LinkedIssueRef where
  key : Str
  summary : Str
  status : Option Str
  issueType : Option Str
  relation : Str
  direction : LinkDirection
  linkType : Option Str
deriving DecidableEq

/-- The direction:key:relation dedup key of extractLinkedIssues. -/
def linkedDedupKey (dir key relation : Str) : Str :=
  dir ++ [':'] ++ key ++ [':'] ++ relation

/-- The loop of extractLinkedIssues: each link entry contributes its
outward side then its inward side, deduplicated across the whole list. -/
def extractLinkedLoop (seen : List Str) : List JsVal → List LinkedIssueRef
  | [] => []
  | e :: rest =>
    match e with
    | .obj link =>
      let linkTypeFields := objLookup link ("type".data)
      let linkTypeName := normalizeString (propStr linkTypeFields ("name".data))
      let stepOut :=
        match toCompactIssueRef (objLookup link ("outwardIssue".data)) with
        | some ow =>
          let relation :=
            (normalizeString (propStr linkTypeFields ("outward".data))).getD
              (linkTypeName.getD ("related".data))
          let k := linkedDedupKey ("outward".data) ow.key relation
          if k ∈ seen then (([] : List LinkedIssueRef), seen)
          else ([{ key := ow.key, summary := ow.summary, status := ow.status,
                   issueType := ow.issueType, relation := relation,
                   direction := .outward, linkType := linkTypeName }], k :: seen)
        | none => (([] : List LinkedIssueRef), seen)
      let stepIn :=
        match toCompactIssueRef (objLookup link ("inwardIssue".data)) with
        | some iw =>
          let relation :=
            (normalizeString (propStr linkTypeFields ("inward".data))).getD
              (linkTypeName.getD ("related".data))
          let k := linkedDedupKey ("inward".data) iw.key relation
          if k ∈ stepOut.2 then (([] : List LinkedIssueRef), stepOut.2)
          else ([{ key := iw.key, summary := iw.summary, status := iw.status,
                   issueType := iw.issueType, relation := relation,
                   direction := .inward, linkType := linkTypeName }], k :: stepOut.2)
        | none => (([] : List LinkedIssueRef), stepOut.2)
      stepOut.1 ++ stepIn.1 ++ extractLinkedLoop stepIn.2 rest
    | _ => extractLinkedLoop seen rest

def extractLinkedIssues (value : Option JsVal) : List LinkedIssueRef :=
  match value with
  | some (.arr entries) => extractLinkedLoop [] entries
  | _ => []

structure StatusOut where
  id : Option Str
  name : Option Str
  category : Option Str
deriving DecidableEq

/-- extractStatus: id, name and category name when present; all absent
yields null. -/
def extractStatus (value : Option JsVal) : Option StatusOut :=
  let id := normalizeString (propStr value ("id".data))
  let name := normalizeString (propStr value ("name".data))
  let category := normalizeString (propStr (propOf value ("statusCategory".data)) ("name".data))
  if id = none ∧ name = none ∧ category = none then none
  else some { id := id, name := name, category := category }

structure IssueRef where
  id : Option Str
  name : Option Str
deriving DecidableEq

/-- extractIssueRef: id and name when present; both absent yields null. -/
def extractIssueRef (value : Option JsVal) : Option IssueRef :=
  match value with
  | none => none
  | some v =>
    let id := normalizeString (propStr (some v) ("id".data))
    let name := normalizeString (propStr (some v) ("name".data))
    if id = none ∧ name = none then none else some { id := id, name := name }

/-! ## Description conversion and configuration -/

inductive DescriptionFormat where
  | plain_text
  | adf
deriving DecidableEq

/-- A description output: plain text or a rich-text document. -/
inductive IssueDescriptionOut where
  | plain (s : Str)
  | adfDoc (v : JsVal)

inductive SeverityValueType where
  | option
  | string
  | number
deriving DecidableEq

/-- The relevant part of the immutable configuration record (transport
settings are outside the embedding). -/
structure JiraConfig where
  severityFieldId : Option Str
  severityJqlField : Str
  severityValueType : SeverityValueType

/-- Platform builtins used by the adapter, threaded as parameters:
JSON.parse (none when it throws or for non-values) and the Number
conversion (restricted to integral results; none models NaN). -/
structure JsBuiltins where
  jsonParse : Str → Option JsVal
  toNumber : Str → Option Int

def normalizeDescriptionFormat (f : Option DescriptionFormat) : DescriptionFormat :=
  if f = some DescriptionFormat.adf then .adf else .plain_text

/-- parseAdfLikeValue: falsy values and blank strings give null, strings
are JSON-parsed and must yield a plain object, arrays are rejected,
objects pass through. -/
def parseAdfLikeValue (B : JsBuiltins) (value : Option JsVal) :
    Option (List (Str × JsVal)) :=
  match value with
  | none => none
  | some v =>
    if truthy v then
      match v with
      | .str s =>
        let trimmed := jsTrim s
        if trimmed = [] then none
        else
          match B.jsonParse trimmed with
          | some (.obj fs) => some fs
          | _ => none
      | .obj fs => some fs
      | _ => none
    else none

/-- isAdfDocument: type normalizes to doc, numeric version, array
content. -/
def isAdfDocument (fs : List (Str × JsVal)) : Bool :=
  normalizeString (strProp fs ("type".data)) == some ("doc".data) &&
    (match objLookup fs ("version".data) with
     | some (.num _) => true
     | _ => false) &&
    (match objLookup fs ("content".data) with
     | some (.arr _) => true
     | _ => false)

def emptyAdfDoc : JsVal :=
  .obj [(("type".data), .str ("doc".data)), (("version".data), .num 1),
        (("content".data), .arr [])]

def toAdfDocument (B : JsBuiltins) (value : Option JsVal) : JsVal :=
  match parseAdfLikeValue B value with
  | some fs => if isAdfDocument fs then .obj fs else emptyAdfDoc
  | none => emptyAdfDoc

def toDescriptionOutput (B : JsBuiltins) (description : Option JsVal)
    (fmt : Option DescriptionFormat) : IssueDescriptionOut :=
  if normalizeDescriptionFormat fmt = .adf then .adfDoc (toAdfDocument B description)
  else .plain (adfToPlainText (description.getD .null))

def lbrace : Char := Char.ofNat 123
def rbrace : Char := Char.ofNat 125

/-- The invalid-ADF-input error text. -/
def adfInputErrorMessage : Str :=
  ("description must be a valid ADF document when descriptionFormat=adf. Expected object: ".data) ++
    [lbrace] ++ (" type: ".data) ++ [apos] ++ ("doc".data) ++ [apos] ++
    (", version: 1, content: [...] ".data) ++ [rbrace] ++ (".".data)

/-- toJiraDescription: adf format validates the parsed document, plain
format requires a string and converts it. -/
def toJiraDescription (B : JsBuiltins) (description : JsVal)
    (fmt : Option DescriptionFormat) : Except JsError JsVal :=
  if normalizeDescriptionFormat fmt = .adf then
    match parseAdfLikeValue B (some description) with
    | some fs => if isAdfDocument fs then .ok (.obj fs) else .error (.err adfInputErrorMessage)
    | none => .error (.err adfInputErrorMessage)
  else
    match description with
    | .str s => .ok (plainTextToAdf s)
    | _ =>
      .error (.err ("description must be a string when descriptionFormat is plain_text (or omitted).".data))

/-- buildSeverityPayload: empty and absent are unset; value typing per
configuration (string passthrough, number via the Number conversion with
a non-numeric error, option wrapper otherwise). -/
def buildSeverityPayload (B : JsBuiltins) (cfg : JiraConfig) (severity : Option Str) :
    Except JsError (Option JsVal) :=
  match severity.map jsTrim with
  | none => .ok none
  | some normalized =>
    if normalized = [] then .ok none
    else if cfg.severityValueType = SeverityValueType.string then .ok (some (.str normalized))
    else if cfg.severityValueType = SeverityValueType.number then
      match B.toNumber normalized with
      | some n => .ok (some (.num n))
      | none =>
        .error (.err (("Severity ".data) ++ [apos] ++ normalized ++ [apos] ++
          (" is not numeric but JIRA_SEVERITY_VALUE_TYPE is ".data) ++ [apos] ++
          ("number".data) ++ [apos] ++ (".".data)))
    else .ok (some (.obj [(("value".data), .str normalized)]))

/-! ## Comment loading -/

structure JiraCommentAuthor where
  accountId : Option Str
  displayName : Option Str
deriving DecidableEq

structure JiraCommentResponse where
  id : Option Str
  body : Option JsVal
  created : Option Str
  updated : Option Str
  author : Option JiraCommentAuthor

structure IssueComment where
  id : Str
  body : Str
  authorAccountId : Option Str
  authorDisplayName : Option Str
  created : Option Str
  updated : Option Str
deriving DecidableEq

/-- toIssueComment: id defaults to unknown, body through the document
converter, author fields only when present, timestamps or null. -/
def toIssueComment (comment : JiraCommentResponse) : IssueComment :=
  { id := (normalizeString comment.id).getD ("unknown".data),
    body := adfToPlainText (comment.body.getD .null),
    authorAccountId := normalizeString (comment.author.bind (fun a => a.accountId)),
    authorDisplayName := normalizeString (comment.author.bind (fun a => a.displayName)),
    created := normalizeString comment.created,
    updated := normalizeString comment.updated }

inductive CommentReadMode where
  | skip
  | last_3
  | all
deriving DecidableEq

structure IssueCommentsMeta where
  mode : CommentReadMode
  total : Nat
  returned : Nat
deriving DecidableEq

structure JiraCommentPageResponse where
  comments : Option (List JiraCommentResponse)
  total : Option Nat

/-- The upstream comment store model: a page is the contiguous ascending
slice starting at startAt of length at most maxResults, and the reported
total is the store size (a consistent upstream). -/
def fetchIssueCommentsPage (store : List JiraCommentResponse) (startAt maxResults : Nat) :
    JiraCommentPageResponse :=
  { comments := some ((store.drop startAt).take maxResults),
    total := some store.length }

/-- fetchLastIssueComments: one probe request of page size one learns the
total; a non-positive total returns empty; otherwise exactly one page is
fetched from offset max(0, total - count), which over naturals is the
truncated subtraction.  The second component records the page requests
issued as startAt-maxResults pairs. -/
def fetchLastIssueComments (store : List JiraCommentResponse) (count : Nat) :
    (List IssueComment × IssueCommentsMeta) × List (Nat × Nat) :=
  let page := fetchIssueCommentsPage store 0 1
  let total :=
    match page.total with
    | some t => t
    | none => (page.comments.getD []).length
  if total = 0 then
    (([], { mode := .last_3, total := 0, returned := 0 }), [(0, 1)])
  else
    let startAt := total - count
    let commentsPage := fetchIssueCommentsPage store startAt count
    let comments := (commentsPage.comments.getD []).map toIssueComment
    ((comments, { mode := .last_3, total := total, returned := comments.length }),
     [(0, 1), (startAt, count)])

/-- The while-true page loop of fetchAllIssueComments. -/
def fetchAllLoop (store : List JiraCommentResponse) (startAt : Nat) (total : Option Nat)
    (acc : List IssueComment) (pageLog : List (Nat × Nat)) :
    List IssueComment × Option Nat × List (Nat × Nat) :=
  let page := fetchIssueCommentsPage store startAt 100
  let total2 :=
    match page.total with
    | some t => some t
    | none => total
  let batch := (page.comments.getD []).map toIssueComment
  let acc2 := acc ++ batch
  let log2 := pageLog ++ [(startAt, 100)]
  if hb : batch.length = 0 then (acc2, total2, log2)
  else
    let startAt2 := startAt + batch.length
    match total2 with
    | some t =>
      if startAt2 ≥ t then (acc2, total2, log2)
      else fetchAllLoop store startAt2 total2 acc2 log2
    | none => fetchAllLoop store startAt2 total2 acc2 log2
termination_by store.length - startAt
decreasing_by
  all_goals
    unfold_let startAt2 batch page at hb ⊢
    simp only [fetchIssueCommentsPage, Option.getD_some, List.length_map,
      List.length_take, List.length_drop] at hb ⊢
    omega

def fetchAllIssueComments (store : List JiraCommentResponse) :
    (List IssueComment × IssueCommentsMeta) × List (Nat × Nat) :=
  match fetchAllLoop store 0 none [] [] with
  | (comments, total, pageLog) =>
    ((comments,
      { mode := .all, total := total.getD comments.length, returned := comments.length }),
     pageLog)

structure IssueReadOptions where
  skipComments : Option Bool
  loadOnlyLast3Comments : Option Bool
  descriptionFormat : Option DescriptionFormat

/-- getIssueComments: skip takes precedence, the last-three mode is the
default, else the full scan. -/
def getIssueComments (store : List JiraCommentResponse) (options : IssueReadOptions) :
    (List IssueComment × IssueCommentsMeta) × List (Nat × Nat) :=
  if options.skipComments.getD false then
    (([], { mode := .skip, total := 0, returned := 0 }), [])
  else if options.loadOnlyLast3Comments.getD true then
    fetchLastIssueComments store 3
  else
    fetchAllIssueComments store

/-! ## The focused issue projection -/

structure FocusedIssue where
  key : Str
  summary : Str
  description : IssueDescriptionOut
  fixVersions : List Str
  affectedVersions : List Str
  status : Option StatusOut
  priority : Option IssueRef
  severity : Option Str
  issueType : Option IssueRef
  projectKey : Option Str
  parent : Option CompactIssueRef
  subtasks : List CompactIssueRef
  linkedIssues : List LinkedIssueRef
  comments : List IssueComment
  commentsMeta : IssueCommentsMeta

/-- toFocusedIssue: the projection of a raw issue record into the focused
shape. -/
def toFocusedIssue (cfg : JiraConfig) (B : JsBuiltins) (issue : JiraIssueResponse)
    (comments : List IssueComment) (commentsMeta : IssueCommentsMeta)
    (descriptionFormat : Option DescriptionFormat) : FocusedIssue :=
  let fields := issue.fields
  let severityRaw :=
    match cfg.severityFieldId with
    | some fid => objLookup fields fid
    | none => objLookup fields ("severity".data)
  { key := issue.key,
    summary := (normalizeString (strProp fields ("summary".data))).getD [],
    description := toDescriptionOutput B (objLookup fields ("description".data)) descriptionFormat,
    fixVersions := extractNameList (objLookup fields ("fixVersions".data)),
    affectedVersions := extractNameList (objLookup fields ("versions".data)),
    status := extractStatus (objLookup fields ("status".data)),
    priority := extractIssueRef (objLookup fields ("priority".data)),
    severity := extractScalarOpt severityRaw,
    issueType := extractIssueRef (objLookup fields ("issuetype".data)),
    projectKey := normalizeString (propStr (objLookup fields ("project".data)) ("key".data)),
    parent := toCompactIssueRef (objLookup fields ("parent".data)),
    subtasks := extractIssueRefsFromArray (objLookup fields ("subtasks".data)),
    linkedIssues := extractLinkedIssues (objLookup fields ("issuelinks".data)),
    comments := comments,
    commentsMeta := commentsMeta }

/-- The default comments context of projections that load none. -/
def defaultCommentsMeta : IssueCommentsMeta := { mode := .skip, total := 0, returned := 0 }

/-! ## Search -/

structure JiraEnhancedSearchResponse where
  issues : Option (List JiraIssueResponse)
  nextPageToken : Option Str

structure JiraLegacySearchResponse where
  issues : Option (List JiraIssueResponse)
  total : Option Int
  startAt : Option Int

/-- The upstream outcomes a single search call would observe on each of
the two endpoints. -/
structure SearchEnv where
  enhanced : Except JsError JiraEnhancedSearchResponse
  legacy : Except JsError JiraLegacySearchResponse

inductive SearchMode where
  | enhanced
  | legacy
deriving DecidableEq

structure JqlIssueListItem where
  key : Str
  summary : Str
  fixVersions : List Str
  sprints : List Str
  assignee : Option Str
  reporter : Option Str
  priority : Option Str
  status : Option Str
deriving DecidableEq

def toJqlIssueListItem (issue : JiraIssueResponse) : JqlIssueListItem :=
  let fields := issue.fields
  { key := issue.key,
    summary := (normalizeString (strProp fields ("summary".data))).getD [],
    fixVersions := extractNameList (objLookup fields ("fixVersions".data)),
    sprints := extractSprintNames (objLookup fields ("sprint".data)),
    assignee := extractUserName (objLookup fields ("assignee".data)),
    reporter := extractUserName (objLookup fields ("reporter".data)),
    priority := extractScalarOpt (objLookup fields ("priority".data)),
    status := normalizeString (propStr (objLookup fields ("status".data)) ("name".data)) }

def JQL_RESULTS_TRUNCATED_NOTICE : Str :=
  "Results truncated because results exceeded 50!".data

structure SearchIssuesByJqlResult where
  jql : Str
  issues : List JqlIssueListItem
  truncated : Bool
  notice : Option Str
  mode : SearchMode
deriving DecidableEq

/-- searchIssuesByJql: strict mode requests one item beyond the cap
(51); truncation on more than fifty raw items or a truthy continuation
token (enhanced) or a reported total above fifty (legacy); the enhanced
endpoint is tried first and a 404-class JiraApiError falls back to the
legacy endpoint for this call only. -/
def searchIssuesByJql (env : SearchEnv) (inputJql : Str) :
    Except JsError SearchIssuesByJqlResult :=
  match buildStrictJql inputJql with
  | .error e => .error e
  | .ok jql =>
  match env.enhanced with
  | .ok response =>
    let rawIssues := response.issues.getD []
    let truncated := decide (rawIssues.length > 50) ||
      (match response.nextPageToken with
       | some t => !t.isEmpty
       | none => false)
    .ok { jql := jql, issues := (rawIssues.take 50).map toJqlIssueListItem,
          truncated := truncated,
          notice := if truncated then some JQL_RESULTS_TRUNCATED_NOTICE else none,
          mode := .enhanced }
  | .error e =>
    if is404 e then
      match env.legacy with
      | .ok response =>
        let rawIssues := response.issues.getD []
        let truncated := decide (response.total.getD 0 > 50) || decide (rawIssues.length > 50)
        .ok { jql := jql, issues := (rawIssues.take 50).map toJqlIssueListItem,
              truncated := truncated,
              notice := if truncated then some JQL_RESULTS_TRUNCATED_NOTICE else none,
              mode := .legacy }
      | .error e2 => .error e2
    else .error e

structure SearchIssuesInput where
  projectKey : Option Str
  issueKeys : Option (List Str)
  issueTypes : Option (List Str)
  summaryContains : Option Str
  descriptionContains : Option Str
  fixVersions : Option (List Str)
  affectedVersions : Option (List Str)
  statuses : Option (List Str)
  priorities : Option (List Str)
  severities : Option (List Str)
  jql : Option Str
  maxResults : Option Int
  nextPageToken : Option Str

/-- The cf-bracket form test of the severity JQL field (already
lowercased input). -/
def cfBracketTest (low : Str) : Bool :=
  match low with
  | 'c' :: 'f' :: '[' :: rest =>
    let ds := rest.takeWhile (fun c => c.isDigit)
    !ds.isEmpty && (rest.drop ds.length) == ("]".data)
  | _ => false

/-- The bare identifier test of the severity JQL field. -/
def identTest (raw : Str) : Bool :=
  match raw with
  | [] => false
  | c :: rest =>
    ((97 ≤ c.toNat && c.toNat ≤ 122) || (65 ≤ c.toNat && c.toNat ≤ 90) || c = '_') &&
      rest.all (fun ch => isWordChar ch)

/-- formatSeverityJqlField: customfield underscore digits rewrites to the
cf bracket form; the bracket form and bare identifiers pass through;
anything else is quoted with quote escaping. -/
def formatSeverityJqlField (cfg : JiraConfig) : Str :=
  let raw := jsTrim cfg.severityJqlField
  let low := lowerStr raw
  if ("customfield_".data).isPrefixOf low ∧ (raw.drop 12) ≠ [] ∧
      (raw.drop 12).all (fun c => c.isDigit) then
    ("cf[".data) ++ raw.drop 12 ++ ("]".data)
  else if cfBracketTest low || identTest raw then raw
  else ['"'] ++ (raw.flatMap (fun c => if c = '"' then ['\\', '"'] else [c])) ++ ['"']

/-- buildJql: the independent clauses in source order, the optional raw
query combination, the empty-input failure, and the order-by append. -/
def buildJql (cfg : JiraConfig) (input : SearchIssuesInput) : Except JsError Str :=
  let clauses :=
    (match input.projectKey with
     | some pk => if pk = [] then [] else [("project = ".data) ++ quoteJqlLiteral pk]
     | none => []) ++
    (match buildJqlListClause ("key".data) input.issueKeys with
     | some c => [c]
     | none => []) ++
    (match buildJqlListClause ("issuetype".data) input.issueTypes with
     | some c => [c]
     | none => []) ++
    (match input.summaryContains with
     | some s =>
       let t := jsTrim s
       if t = [] then [] else [("summary ~ ".data) ++ quoteJqlLiteral t]
     | none => []) ++
    (match input.descriptionContains with
     | some s =>
       let t := jsTrim s
       if t = [] then [] else [("description ~ ".data) ++ quoteJqlLiteral t]
     | none => []) ++
    (match buildJqlListClause ("fixVersion".data) input.fixVersions with
     | some c => [c]
     | none => []) ++
    (match buildJqlListClause ("affectedVersion".data) input.affectedVersions with
     | some c => [c]
     | none => []) ++
    (match buildJqlListClause ("status".data) input.statuses with
     | some c => [c]
     | none => []) ++
    (match buildJqlListClause ("priority".data) input.priorities with
     | some c => [c]
     | none => []) ++
    (match buildJqlListClause (formatSeverityJqlField cfg) input.severities with
     | some c => [c]
     | none => [])
  let jql0 := jsTrim (input.jql.getD [])
  let filtersJql := joinSep (" AND ".data) clauses
  let combined :=
    if jql0 ≠ [] ∧ filtersJql ≠ [] then
      ("(".data) ++ jql0 ++ (") AND (".data) ++ filtersJql ++ (")".data)
    else if jql0 = [] then filtersJql
    else jql0
  if combined = [] then
    .error (.err ("Provide at least one filter field or a raw jql query.".data))
  else if hasOrderBy combined then .ok combined
  else .ok (combined ++ (" ORDER BY updated DESC".data))

def digitsToNat (ds : Str) : Nat :=
  ds.foldl (fun acc c => acc * 10 + (c.toNat - 48)) 0

/-- The longest leading digit run, none when there is none. -/
def digitsOf (s : Str) : Option Nat :=
  let ds := s.takeWhile (fun c => c.isDigit)
  if ds = [] then none else some (digitsToNat ds)

/-- Number.parseInt with radix ten: leading whitespace, optional sign,
longest digit prefix; none models NaN. -/
def parseIntJs (s : Str) : Option Int :=
  let t := s.dropWhile (fun c => isJsWs c)
  match t with
  | '-' :: rest => (digitsOf rest).map (fun n => -(n : Int))
  | '+' :: rest => (digitsOf rest).map (fun n => (n : Int))
  | _ => (digitsOf t).map (fun n => (n : Int))

def invalidTokenMessage (t : Str) : Str :=
  ("Invalid nextPageToken ".data) ++ [apos] ++ t ++ [apos] ++
    (" for legacy Jira search.".data)

/-- parseNextPageToken: falsy tokens mean offset zero; a non-numeric or
negative parse is an error. -/
def parseNextPageToken (token : Option Str) : Except JsError Int :=
  match token with
  | none => .ok 0
  | some t =>
    if t = [] then .ok 0
    else
      match parseIntJs t with
      | some n => if n < 0 then .error (.err (invalidTokenMessage t)) else .ok n
      | none => .error (.err (invalidTokenMessage t))

structure SearchIssuesResult where
  jql : Str
  issues : List FocusedIssue
  nextPageToken : Option Str
  mode : SearchMode

/-- searchIssues: enhanced first; a 404-class JiraApiError falls back to
the legacy offset search for this call only, any other failure
propagates.  The legacy branch derives its continuation token from the
reported offset and total. -/
def searchIssues (cfg : JiraConfig) (B : JsBuiltins) (env : SearchEnv)
    (input : SearchIssuesInput) : Except JsError SearchIssuesResult :=
  match buildJql cfg input with
  | .error e => .error e
  | .ok jql =>
  match env.enhanced with
  | .ok response =>
    .ok { jql := jql,
          issues := (response.issues.getD []).map
            (fun i => toFocusedIssue cfg B i [] defaultCommentsMeta none),
          nextPageToken := response.nextPageToken,
          mode := .enhanced }
  | .error e =>
    if is404 e then
      match parseNextPageToken input.nextPageToken with
      | .error e2 => .error e2
      | .ok _startAt =>
      match env.legacy with
      | .ok response =>
        let issues := (response.issues.getD []).map
          (fun i => toFocusedIssue cfg B i [] defaultCommentsMeta none)
        let nextStart := response.startAt.getD 0 + (issues.length : Int)
        let total := response.total.getD 0
        .ok { jql := jql, issues := issues,
              nextPageToken := if nextStart < total then some (intToStr nextStart) else none,
              mode := .legacy }
      | .error e2 => .error e2
    else .error e

/-! ## Issue reads and creation -/

/-- getIssue over an environment: the raw issue record and the comment
store stand in for the two upstream fetches. -/
def getIssue (cfg : JiraConfig) (B : JsBuiltins) (issueResponse : JiraIssueResponse)
    (commentStore : List JiraCommentResponse) (options : IssueReadOptions) : FocusedIssue :=
  let commentsContext := getIssueComments commentStore options
  toFocusedIssue cfg B issueResponse commentsContext.1.1 commentsContext.1.2
    options.descriptionFormat

structure CreateIssueInput where
  projectKey : Str
  issueType : Str
  summary : Str
  description : Option JsVal
  descriptionFormat : Option DescriptionFormat
  fixVersions : Option (List Str)
  affectedVersions : Option (List Str)
  priority : Option Str
  severity : Option Str
  status : Option Str

/-- The upstream responses one createIssue call would observe: the
project metadata, the version catalog, the key of the created issue, the
transition list of the created issue, the posted transition outcome, and
the final issue fetch with its comment store. -/
structure CreateEnv where
  project : JiraProjectResponse
  versions : List JiraVersion
  createdKey : Str
  transitions : List JiraTransition
  transitionPost : Except JsError Unit
  issueResponse : JiraIssueResponse
  commentStore : List JiraCommentResponse

structure CreateIssueResult where
  issue : FocusedIssue
  transition : Option IssueTransitionResult

/-- createIssue: resolve the issue type and the two version lists (any
failure aborts before the write), build the description, priority and
severity payloads, post the create, then attempt the requested status
transition (when a truthy status was requested) and re-fetch the issue;
the transition result is part of the successful result. -/
def createIssue (cfg : JiraConfig) (B : JsBuiltins) (env : CreateEnv)
    (input : CreateIssueInput) : Except JsError CreateIssueResult :=
  match resolveIssueTypeId env.project input.projectKey input.issueType with
  | .error e => .error e
  | .ok _issueTypeId =>
  match resolveVersionIds env.versions input.fixVersions with
  | .error e => .error e
  | .ok _fixVersionIds =>
  match resolveVersionIds env.versions input.affectedVersions with
  | .error e => .error e
  | .ok _affectedVersionIds =>
  match
    (match input.description with
     | some d => Except.map some (toJiraDescription B d input.descriptionFormat)
     | none => Except.ok none)
  with
  | .error e => .error e
  | .ok _descriptionPayload =>
  let _priorityPayload := buildPriorityPayload input.priority
  match buildSeverityPayload B cfg input.severity with
  | .error e => .error e
  | .ok severityPayload =>
  if severityPayload.isSome ∧ cfg.severityFieldId = none then
    .error (JsError.err
      ("Cannot set severity: configure JIRA_SEVERITY_FIELD_ID (for example customfield_12345).".data))
  else
    let _createdKey := env.createdKey
    match
      (match input.status with
       | some st =>
         if st = [] then Except.ok none
         else Except.map some (tryTransitionIssue env.transitions env.transitionPost st)
       | none => Except.ok (none : Option IssueTransitionResult))
    with
    | .error e => .error e
    | .ok transition =>
      .ok { issue := getIssue cfg B env.issueResponse env.commentStore
              { skipComments := none, loadOnlyLast3Comments := none,
                descriptionFormat := input.descriptionFormat },
            transition := transition }

/-! ## Sprint assignment -/

structure JiraSprintResponse where
  id : Option Int
  name : Option Str
  state : Option Str
  goal : Option Str
  startDate : Option Str
  endDate : Option Str
  originBoardId : Option Int
  boardId : Option Int

structure JiraBoardResponse where
  id : Option Int
  name : Option Str
  type : Option Str

structure BoardRef where
  id : Int
  name : Str
deriving DecidableEq

structure SprintSummary where
  id : Int
  name : Str
  state : Str
  description : Str
  goal : Str
  startDate : Option Str
  endDate : Option Str
  board : BoardRef
deriving DecidableEq

/-- The generated human-readable sprint description. -/
def buildSprintDescription (name state goal : Str) (startDate endDate : Option Str)
    (boardName : Str) : Str :=
  let dateWindow :=
    if (match startDate with | some s => !s.isEmpty | none => false) ||
        (match endDate with | some s => !s.isEmpty | none => false) then
      (startDate.getD ("unknown start".data)) ++ (" -> ".data) ++
        (endDate.getD ("unknown end".data))
    else ("dates not set".data)
  let goalText :=
    if goal = [] then ("Goal: (empty)".data) else ("Goal: ".data) ++ goal
  ("Sprint ".data) ++ [apos] ++ name ++ [apos] ++ (" on board ".data) ++ [apos] ++
    boardName ++ [apos] ++ (" is ".data) ++ [apos] ++ state ++ [apos] ++ (". ".data) ++
    goalText ++ (". Dates: ".data) ++ dateWindow ++ (".".data)

/-- toSprintSummary: a numeric id and truthy name and state are
mandatory. -/
def toSprintSummary (sprint : JiraSprintResponse) (board : BoardRef) : Option SprintSummary :=
  match sprint.id, sprint.name, sprint.state with
  | some id, some name, some state =>
    if name = [] ∨ state = [] then none
    else
      let goal := jsTrim (sprint.goal.getD [])
      some { id := id, name := name, state := state,
             description :=
               buildSprintDescription name state goal sprint.startDate sprint.endDate board.name,
             goal := goal, startDate := sprint.startDate, endDate := sprint.endDate,
             board := board }
  | _, _, _ => none

structure AssignIssueToSprintInput where
  issueKey : Str
  sprintId : Option Int
  sprintName : Option Str
  projectKey : Option Str
  boardName : Option Str
  loadIssueAfterAssign : Option Bool
  skipComments : Option Bool
  loadOnlyLast3Comments : Option Bool
  descriptionFormat : Option DescriptionFormat

/-- The upstream responses one assignIssueToSprint call would observe.
The board and sprint listing of the by-name path is supplied as the
sprint summaries listSprints would return. -/
structure AssignEnv where
  sprintById : JiraSprintResponse
  boardById : Except JsError JiraBoardResponse
  listedSprints : List SprintSummary
  issueProjectKey : Except JsError Str
  assignPost : Except JsError Unit
  issueResponse : JiraIssueResponse
  commentStore : List JiraCommentResponse

/-- fetchSprintById: board name is best effort with a fallback. -/
def fetchSprintById (env : AssignEnv) (sprintId : Int) : Except JsError SprintSummary :=
  let sprint := env.sprintById
  let boardId : Option Int :=
    match sprint.originBoardId with
    | some b => some b
    | none => sprint.boardId
  let fallbackName :=
    match boardId with
    | some b => ("Board ".data) ++ intToStr b
    | none => ("Unknown board".data)
  let boardName :=
    match boardId with
    | some _ =>
      match env.boardById with
      | .ok board => (normalizeString board.name).getD fallbackName
      | .error _ => fallbackName
    | none => fallbackName
  match toSprintSummary sprint { id := boardId.getD 0, name := boardName } with
  | some summary => .ok summary
  | none =>
    .error (.err (("Sprint ".data) ++ intToStr sprintId ++
      (" is missing mandatory fields in Jira response.".data)))

def sprintPreviewEntry (s : SprintSummary) : Str :=
  intToStr s.id ++ [':'] ++ s.name ++ (" (".data) ++ s.state ++ (")".data)

def sprintMatchEntry (s : SprintSummary) : Str :=
  intToStr s.id ++ [':'] ++ s.name ++ (" on ".data) ++ [apos] ++ s.board.name ++ [apos] ++
    (" (".data) ++ s.state ++ (")".data)

/-- The by-name selection over the listed sprints: zero matches and
ambiguous matches are validation errors. -/
def resolveSprintByName (env : AssignEnv) (sprintName projectKey : Str) :
    Except JsError SprintSummary :=
  let normalizedRequested := normalizeLabelForMatch (some sprintName)
  let matched := env.listedSprints.filter
    (fun s => normalizeLabelForMatch (some s.name) == normalizedRequested)
  if matched.length = 0 then
    let preview := joinSep (", ".data) ((env.listedSprints.take 20).map sprintPreviewEntry)
    .error (.err (("Sprint ".data) ++ [apos] ++ sprintName ++ [apos] ++
      (" not found for project ".data) ++ projectKey ++ (". Available sprints: ".data) ++
      (if preview = [] then ("(none)".data) else preview) ++ (".".data)))
  else if matched.length > 1 then
    let details := joinSep (", ".data) (matched.map sprintMatchEntry)
    .error (.err (("Sprint name ".data) ++ [apos] ++ sprintName ++ [apos] ++
      (" is ambiguous. Use sprintId. Matches: ".data) ++ details ++ (".".data)))
  else
    match matched.head? with
    | some first => .ok first
    | none => .error (.err ("Unexpected sprint selection error.".data))

/-- resolveSprintForAssignment: selector validation, then the by-id fetch
or the by-name selection (project key from the input or from the issue). -/
def resolveSprintForAssignment (env : AssignEnv) (input : AssignIssueToSprintInput) :
    Except JsError SprintSummary :=
  let hasSprintId := input.sprintId.isSome
  let hasSprintName :=
    match input.sprintName with
    | some n => !(jsTrim n).isEmpty
    | none => false
  if hasSprintId && hasSprintName then
    .error (.err ("Provide either sprintId or sprintName, not both.".data))
  else if !hasSprintId && !hasSprintName then
    .error (.err ("Provide sprintId or sprintName.".data))
  else
    match input.sprintId with
    | some sprintId =>
      if sprintId ≤ 0 then .error (.err ("sprintId must be a positive integer.".data))
      else fetchSprintById env sprintId
    | none =>
      match input.sprintName.map jsTrim with
      | some sprintName =>
        if sprintName = [] then .error (.err ("sprintName cannot be empty.".data))
        else
          match
            (match input.projectKey.map jsTrim with
             | some p => if p = [] then none else some p
             | none => none)
          with
          | some projectKey => resolveSprintByName env sprintName projectKey
          | none =>
            match env.issueProjectKey with
            | .ok projectKey => resolveSprintByName env sprintName projectKey
            | .error e => .error e
      | none => .error (.err ("Provide sprintId or sprintName.".data))

structure AssignIssueToSprintResult where
  issueKey : Str
  sprint : SprintSummary
  issue : Option FocusedIssue

/-- The closed-sprint refusal text. -/
def closedSprintMessage (sprint : SprintSummary) : Str :=
  ("Cannot assign issue to closed sprint ".data) ++ intToStr sprint.id ++
    (" (".data) ++ sprint.name ++ (").".data)

/-- assignIssueToSprint: validate the issue key, resolve the sprint,
refuse closed sprints before posting, post the assignment, optionally
re-fetch the issue.  The second component is the list of sprint
assignment requests issued, as sprint-id and issue-key pairs. -/
def assignIssueToSprint (cfg : JiraConfig) (B : JsBuiltins) (env : AssignEnv)
    (input : AssignIssueToSprintInput) :
    Except JsError AssignIssueToSprintResult × List (Int × Str) :=
  let issueKey := jsTrim input.issueKey
  if issueKey = [] then (.error (.err ("issueKey cannot be empty.".data)), [])
  else
    match resolveSprintForAssignment env input with
    | .error e => (.error e, [])
    | .ok sprint =>
      if lowerStr (jsTrim sprint.state) = ("closed".data) then
        (.error (.err (closedSprintMessage sprint)), [])
      else
        match env.assignPost with
        | .error e => (.error e, [(sprint.id, issueKey)])
        | .ok _ =>
          if input.loadIssueAfterAssign.getD true = false then
            (.ok { issueKey := issueKey, sprint := sprint, issue := none },
             [(sprint.id, issueKey)])
          else
            let issue := getIssue cfg B env.issueResponse env.commentStore
              { skipComments := input.skipComments,
                loadOnlyLast3Comments := input.loadOnlyLast3Comments,
                descriptionFormat := input.descriptionFormat }
            (.ok { issueKey := issueKey, sprint := sprint, issue := some issue },
             [(sprint.id, issueKey)])

/-! ## Concrete inputs used by witnesses and counterexamples -/

/-- A minimal comment record with the given id text. -/
def mkCommentW (n : Nat) : JiraCommentResponse :=
  { id := some (Nat.repr n).data, body := none, created := none, updated := none,
    author := none }

/-- A five-comment store. -/
def c3StoreW : List JiraCommentResponse := (List.range 5).map mkCommentW

/-- A transition whose destination status name is Done, listed first. -/
def c6T1 : JiraTransition :=
  { id := some ("7".data), name := some ("x".data),
    toRef := some { id := none, name := some ("Done".data) } }

/-- A transition whose id is done, listed second. -/
def c6T2 : JiraTransition :=
  { id := some ("done".data), name := some ("y".data), toRef := none }

/-- A transition whose id is done, used by the C6 witness. -/
def c6WT : JiraTransition :=
  { id := some ("done".data), name := none, toRef := none }

/-- The error payload of an Except, if any. -/
def errOf {α : Type} : Except JsError α → Option JsError
  | .ok _ => none
  | .error e => some e

/-- A candidate link type without a name whose outward label is blocks. -/
def c8NamelessLt : JiraIssueLinkType :=
  { id := none, name := none, inward := some ("is blocked by".data),
    outward := some ("blocks".data) }

/-- A named Blocks link type. -/
def c8WLt : JiraIssueLinkType :=
  { id := none, name := some ("Blocks".data), inward := some ("is blocked by".data),
    outward := some ("blocks".data) }

/-- Builtins used by witnesses: a JSON parser and Number conversion that
always fail (never reached on the witness paths). -/
def bW : JsBuiltins := { jsonParse := fun _ => none, toNumber := fun _ => none }

/-- A configuration with no severity custom field. -/
def cfgW : JiraConfig :=
  { severityFieldId := none, severityJqlField := ("severity".data),
    severityValueType := SeverityValueType.option }

/-- A single Bug issue type and its project. -/
def itBugW : JiraIssueTypeMeta :=
  { id := some ("10".data), name := some ("Bug".data), description := none,
    subtask := none }

def prjW : JiraProjectResponse :=
  { id := none, key := none, name := none, issueTypes := some [itBugW] }

/-- A version catalog with one version named 1.0 of id 100. -/
def c5Version : JiraVersion :=
  { id := some ("100".data), name := some ("1.0".data), released := none,
    archived := none, releaseDate := none }

/-- A minimal raw issue record. -/
def issueW : JiraIssueResponse :=
  { key := ("PRJ-1".data),
    fields := [(("summary".data), JsVal.str ("Checkout fails".data))] }

/-- The createIssue environment of the C5 counterexample. -/
def c5CreateEnv : CreateEnv :=
  { project := prjW, versions := [c5Version], createdKey := ("PRJ-1".data),
    transitions := [], transitionPost := .ok (), issueResponse := issueW,
    commentStore := [] }

/-- A create request carrying an unknown priority name. -/
def c5Input : CreateIssueInput :=
  { projectKey := ("PRJ".data), issueType := ("Bug".data),
    summary := ("Checkout fails".data), description := none,
    descriptionFormat := none, fixVersions := none, affectedVersions := none,
    priority := some ("NotAPriority".data), severity := none, status := none }

/-- A create request naming an unknown issue type. -/
def c5InputBadType : CreateIssueInput :=
  { projectKey := ("PRJ".data), issueType := ("Story".data),
    summary := ("Checkout fails".data), description := none,
    descriptionFormat := none, fixVersions := none, affectedVersions := none,
    priority := none, severity := none, status := none }

/-- A create request naming an unknown fix version. -/
def c5InputBadVersion : CreateIssueInput :=
  { projectKey := ("PRJ".data), issueType := ("Bug".data),
    summary := ("Checkout fails".data), description := none,
    descriptionFormat := none, fixVersions := some [("9.9".data)],
    affectedVersions := none, priority := none, severity := none, status := none }

/-- A sprint response in (upper-case, padded) closed state. -/
def c10SprintResp : JiraSprintResponse :=
  { id := some 5, name := some ("S1".data), state := some ("CLOSED ".data),
    goal := none, startDate := none, endDate := none, originBoardId := some 2,
    boardId := none }

/-- The assignment environment of the C10 witness. -/
def c10Env : AssignEnv :=
  { sprintById := c10SprintResp,
    boardById := .ok { id := some 2, name := some ("Board two".data), type := none },
    listedSprints := [], issueProjectKey := .ok ("PRJ".data), assignPost := .ok (),
    issueResponse := issueW, commentStore := [] }

/-- An assignment request by sprint id. -/
def c10Input : AssignIssueToSprintInput :=
  { issueKey := ("PRJ-1".data), sprintId := some 5, sprintName := none,
    projectKey := none, boardName := none, loadIssueAfterAssign := none,
    skipComments := none, loadOnlyLast3Comments := none, descriptionFormat := none }

/-- The sprint summary the C10 witness environment resolves to. -/
def c10Resolved : SprintSummary :=
  { id := 5, name := ("S1".data), state := ("CLOSED ".data),
    description := buildSprintDescription ("S1".data) ("CLOSED ".data) [] none none
      ("Board two".data),
    goal := [], startDate := none, endDate := none,
    board := { id := 2, name := ("Board two".data) } }

/-- The search environment of the C4 counterexample: fifty raw items and
a non-empty continuation token. -/
def c4Env : SearchEnv :=
  { enhanced := .ok { issues := some (List.replicate 50 issueW),
                      nextPageToken := some ("tok".data) },
    legacy := .error (.err ("unused".data)) }

/-- A search environment returning fifty-one raw items enhanced. -/
def c4Env51 : SearchEnv :=
  { enhanced := .ok { issues := some (List.replicate 51 issueW), nextPageToken := none },
    legacy := .error (.err ("unused".data)) }

/-- A search environment whose enhanced endpoint is missing and whose
legacy endpoint returns two raw items. -/
def c4EnvLegacy : SearchEnv :=
  { enhanced := .error (.api 404 ("POST /rest/api/3/search/jql failed with 404 Not Found".data)
      ([])),
    legacy := .ok { issues := some [issueW, issueW], total := some 2, startAt := some 0 } }

/-- A create request asking for the status In Progress. -/
def c2Input : CreateIssueInput :=
  { projectKey := ("PRJ".data), issueType := ("Bug".data),
    summary := ("Checkout fails".data), description := none,
    descriptionFormat := none, fixVersions := none, affectedVersions := none,
    priority := none, severity := none, status := some ("In Progress".data) }

/-- A search request with only a project filter. -/
def c7Input : SearchIssuesInput :=
  { projectKey := some ("PRJ".data), issueKeys := none, issueTypes := none,
    summaryContains := none, descriptionContains := none, fixVersions := none,
    affectedVersions := none, statuses := none, priorities := none,
    severities := none, jql := none, maxResults := none, nextPageToken := none }

/-- A search environment whose enhanced endpoint succeeds with one item. -/
def c7EnvEnhanced : SearchEnv :=
  { enhanced := .ok { issues := some [issueW], nextPageToken := none },
    legacy := .error (.err ("unused".data)) }

/-- A search environment whose enhanced endpoint is missing (404) and
whose legacy endpoint succeeds. -/
def c7EnvLegacy : SearchEnv :=
  { enhanced := .error (.api 404 ("POST /rest/api/3/search/jql failed with 404 Not Found".data)
      ([])),
    legacy := .ok { issues := some [issueW], total := some 1, startAt := some 0 } }

/-- A search environment whose enhanced endpoint fails with a 500. -/
def c7EnvBroken : SearchEnv :=
  { enhanced := .error (.api 500
      ("POST /rest/api/3/search/jql failed with 500 Internal Server Error".data) ([])),
    legacy := .ok { issues := some [issueW], total := some 1, startAt := some 0 } }

/-! ## Theorems -/

theorem renderNode_paragraph (line : Str) :
    renderNode (paragraphNode line) = line ++ ['\n'] := by
  have h1 : ¬(("paragraph".data : Str) = ("text".data)) := by decide
  have h2 : ¬(("paragraph".data : Str) = ("hardBreak".data)) := by decide
  have h3 : ¬(("type".data : Str) = ("content".data)) := by decide
  have h4 : ¬(("type".data : Str) = ("text".data)) := by decide
  have h5 : isBlockType (some ("paragraph".data)) = true := by decide
  by_cases h : line = []
  · subst h
    decide
  · simp [paragraphNode, renderNode, renderContent, renderList, strProp,
      objLookup, h, h1, h2, h3, h4, h5]

theorem renderList_paragraphs (lines : List Str) :
    renderList (lines.map paragraphNode) =
      (lines.map (fun l => l ++ ['\n'])).flatten := by
  induction lines with
  | nil => simp [renderList]
  | cons l ls ih => simp [renderList, renderNode_paragraph, ih]

theorem renderNode_plainTextToAdf (s : Str) :
    renderNode (plainTextToAdf s) =
      ((splitNl (normalizeCrlf s)).map (fun l => l ++ ['\n'])).flatten := by
  have h1 : ¬(("doc".data : Str) = ("text".data)) := by decide
  have h2 : ¬(("doc".data : Str) = ("hardBreak".data)) := by decide
  have h3 : ¬(("type".data : Str) = ("content".data)) := by decide
  have h4 : ¬(("version".data : Str) = ("content".data)) := by decide
  have h5 : isBlockType (some ("doc".data)) = false := by decide
  simp [plainTextToAdf, renderNode, renderContent, strProp, objLookup,
    h1, h2, h3, h4, h5, renderList_paragraphs]

theorem flatten_splitNl (t : Str) :
    ((splitNl t).map (fun l => l ++ ['\n'])).flatten = t ++ ['\n'] := by
  induction t with
  | nil => simp [splitNl]
  | cons c rest ih =>
    by_cases hc : c = '\n'
    · subst hc
      simp [splitNl, ih]
    · cases hsp : splitNl rest with
      | nil =>
        rw [hsp] at ih
        simp at ih
      | cons line lines =>
        rw [hsp] at ih
        simp only [List.map, List.flatten] at ih ⊢
        simp [splitNl, hc, hsp]
        simp at ih
        exact ih

theorem collapseNl_append_nl :
    ∀ t : Str, collapseNl (t ++ ['\n']) = collapseNl t ++ ['\n'] ∨
      collapseNl (t ++ ['\n']) = collapseNl t
  | [] => Or.inl rfl
  | [_] => Or.inl rfl
  | [c1, c2] => by
    by_cases h : c1 = '\n' ∧ c2 = '\n'
    · rcases h with ⟨h1, h2⟩
      subst h1
      subst h2
      exact Or.inr (by decide)
    · left
      show collapseNl [c1, c2, '\n'] = collapseNl [c1, c2] ++ ['\n']
      rw [collapseNl, if_neg (fun hh => h ⟨hh.1, hh.2.1⟩)]
      rfl
  | c1 :: c2 :: c3 :: rest => by
    have ih := collapseNl_append_nl (c2 :: c3 :: rest)
    simp only [List.cons_append] at ih ⊢
    by_cases h : c1 = '\n' ∧ c2 = '\n' ∧ c3 = '\n'
    · rw [collapseNl, if_pos h, collapseNl, if_pos h]
      exact ih
    · rw [collapseNl, if_neg h, collapseNl, if_neg h]
      rcases ih with h1 | h1
      · left
        rw [h1]
        rfl
      · right
        rw [h1]

theorem jsTrim_append_nl (x : Str) : jsTrim (x ++ ['\n']) = jsTrim x := by
  unfold jsTrim
  rw [List.dropWhile_append]
  cases hdw : x.dropWhile (fun c => isJsWs c) with
  | nil =>
    have h2 : List.dropWhile (fun c => isJsWs c) ['\n'] = ([] : Str) := by decide
    simp [h2]
  | cons a as =>
    simp only [hdw, List.isEmpty_cons, Bool.false_eq_true, if_false]
    rw [List.reverse_append]
    simp [List.dropWhile_cons, isJsWs]

theorem adf_roundtrip_eq (s : Str) :
    adfToPlainText (plainTextToAdf s) = jsTrim (collapseNl (normalizeCrlf s)) := by
  have h : (truthy (plainTextToAdf s) && isObjectTypeof (plainTextToAdf s)) = true := by
    simp [plainTextToAdf, truthy, isObjectTypeof]
  rw [adfToPlainText, if_pos h, renderNode_plainTextToAdf, flatten_splitNl]
  rcases collapseNl_append_nl (normalizeCrlf s) with h1 | h1
  · rw [h1, jsTrim_append_nl]
  · rw [h1]

/-- C1 counterexample: the input made of the line a, two blank lines and
the line b has no trailing (or leading) blank lines and no CRLF, yet the
round trip adfToPlainText (plainTextToAdf s) collapses the interior blank
run and returns a string different from s — refuting both phrasings of
the claim (equal to s after CRLF normalization; equal to s with CRLF
normalized and trailing/leading blank lines trimmed, which for this input
is s itself). -/
theorem C1_counterexample :
    adfToPlainText (plainTextToAdf ("a\n\n\nb".data)) = ("a\n\nb".data) ∧
    adfToPlainText (plainTextToAdf ("a\n\n\nb".data)) ≠ normalizeCrlf ("a\n\n\nb".data) ∧
    normalizeCrlf ("a\n\n\nb".data) = ("a\n\n\nb".data) := by
  refine ⟨by decide, by decide, by decide⟩

/-- C1 (amended): for every plain-text string s, the round trip
adfToPlainText (plainTextToAdf s) equals s with CRLF normalized to LF,
every run of three or more newlines collapsed to exactly two, and leading
and trailing whitespace trimmed. -/
theorem C1_roundtrip_amended (s : Str) :
    adfToPlainText (plainTextToAdf s) = jsTrim (collapseNl (normalizeCrlf s)) :=
  adf_roundtrip_eq s

/-- C3: in the last-three mode over an upstream store of N comments, the
loader issues one probe request of page size one (recorded first in the
request log); when N is zero it returns no comments with meta mode
last_3, total zero, returned zero, and issues no further request; when N
is positive it issues exactly one further page request at offset
max(0, N - 3) (truncated subtraction) with page size three, and returns
the ascending slice of min(N, 3) comments with meta total N and returned
min(N, 3).  The third conjunct records that this mode is the default of
getIssueComments. -/
theorem C3_comment_loader_last3 (store : List JiraCommentResponse) :
    (store.length = 0 →
      fetchLastIssueComments store 3 =
        (([], { mode := .last_3, total := 0, returned := 0 }), [(0, 1)])) ∧
    (store.length ≠ 0 →
      fetchLastIssueComments store 3 =
        ((((store.drop (store.length - 3)).take 3).map toIssueComment,
          { mode := .last_3, total := store.length, returned := min store.length 3 }),
         [(0, 1), (store.length - 3, 3)])) ∧
    getIssueComments store
        { skipComments := none, loadOnlyLast3Comments := none, descriptionFormat := none } =
      fetchLastIssueComments store 3 := by
  refine ⟨?_, ?_, ?_⟩
  · intro h
    simp [fetchLastIssueComments, fetchIssueCommentsPage, h]
  · intro h
    simp only [fetchLastIssueComments, fetchIssueCommentsPage, Option.getD_some, if_neg h]
    simp only [Prod.mk.injEq, IssueCommentsMeta.mk.injEq, List.length_map,
      List.length_take, List.length_drop, true_and, and_true, eq_self_iff_true]
    omega
  · simp [getIssueComments]

/-- C6 counterexample: with a first transition whose destination status
name matches the request and a second transition whose id matches, the
code applies the first (transition id 7); under the claimed priority of
transition id over destination status name the second (id done) would
have been chosen. -/
theorem C6_counterexample :
    okOf (tryTransitionIssue [c6T1, c6T2] (.ok ()) ("done".data)) =
      some { requestedStatus := ("done".data), applied := true,
             transitionId := some ("7".data), targetStatus := some ("Done".data),
             reason := none } ∧
    (("7".data : Str)) ≠ ("done".data) := by
  exact ⟨by decide, by decide⟩

/-- C6 (amended): the transition chosen is the first transition in
upstream order whose id, name, or destination status name equals the
trimmed requested value case-insensitively — there is no priority among
the three fields across transitions; a first-matching transition with a
truthy id is applied with that id, and one without an id yields the
structured non-applied result. -/
theorem C6_transition_matching_amended
    (ts1 ts2 : List JiraTransition) (t : JiraTransition) (status : Str)
    (hs : jsTrim status ≠ [])
    (hpre : ∀ u ∈ ts1, matchesTransition (lowerStr (jsTrim status)) u = false)
    (hmatch : matchesTransition (lowerStr (jsTrim status)) t = true) :
    (∀ tid, t.id = some tid → tid ≠ [] →
      tryTransitionIssue (ts1 ++ t :: ts2) (.ok ()) status =
        .ok { requestedStatus := jsTrim status, applied := true,
              transitionId := some tid,
              targetStatus :=
                match transitionLabel t with
                | some s => if s = [] then none else some s
                | none => none,
              reason := none }) ∧
    (t.id = none →
      tryTransitionIssue (ts1 ++ t :: ts2) (.ok ()) status =
        .ok (noMatchResult (jsTrim status) (ts1 ++ t :: ts2))) := by
  have hfind : (ts1 ++ t :: ts2).find?
      (fun u => matchesTransition (lowerStr (jsTrim status)) u) = some t := by
    induction ts1 with
    | nil => simp [List.find?_cons, hmatch]
    | cons u us ih =>
      have hu : matchesTransition (lowerStr (jsTrim status)) u = false :=
        hpre u (by simp)
      have ihh := ih (fun w hw => hpre w (by simp [hw]))
      simp [List.find?_cons, hu, ihh]
  constructor
  · intro tid hid htid
    simp only [tryTransitionIssue, if_neg hs, hfind, hid]
    simp [htid]
  · intro hid
    simp only [tryTransitionIssue, if_neg hs, hfind, hid]

/-- C6 witness: the amended theorem applied to a single matching
transition with id done. -/
theorem C6_transition_matching_witness :
    tryTransitionIssue ([] ++ c6WT :: []) (.ok ()) ("done".data) =
      .ok { requestedStatus := jsTrim ("done".data), applied := true,
            transitionId := some ("done".data),
            targetStatus :=
              match transitionLabel c6WT with
              | some s => if s = [] then none else some s
              | none => none,
            reason := none } :=
  (C6_transition_matching_amended [] [] c6WT ("done".data) (by decide)
    (by intro u hu; simp at hu) (by decide)).1 ("done".data) rfl (by decide)

/-- C9 counterexample: a list filter with the two values Open and a
blank string renders as the single equality clause (the blank value is
dropped), not as an IN clause over both values; and a single value is
trimmed before rendering, so a value with surrounding spaces does not
render verbatim. -/
theorem C9_counterexample :
    buildJqlListClause ("status".data) (some [("Open".data), (" ".data)]) =
      some ("status = \"Open\"".data) ∧
    buildJqlListClause ("status".data) (some [("Open".data), (" ".data)]) ≠
      some ("status IN (\"Open\", \" \")".data) ∧
    buildJqlListClause ("status".data) (some [(" Open ".data)]) =
      some ("status = \"Open\"".data) ∧
    buildJqlListClause ("status".data) (some [(" Open ".data)]) ≠
      some ("status = \" Open \"".data) := by
  exact ⟨by decide, by decide, by decide, by decide⟩

/-- C9 (amended): values are first trimmed and empty values dropped; a
single remaining value renders as the quoted equality clause, two or
more render as the quoted IN clause, and none renders no clause; the
statuses example compiles as stated and literals are quoted with
backslash and quote escaping, a double quote rendering as backslash
quote. -/
theorem C9_jql_list_amended :
    (buildJqlListClause ("status".data) (some [("Open".data), ("In Progress".data)]) =
      some ("status IN (\"Open\", \"In Progress\")".data)) ∧
    (quoteJqlLiteral ("say \"hi\"".data) = ("\"say \\\"hi\\\"\"".data)) ∧
    (∀ field values v,
      ((values.map jsTrim).filter (fun s => s.length > 0)) = [v] →
      buildJqlListClause field (some values) =
        some (field ++ (" = ".data) ++ quoteJqlLiteral v)) ∧
    (∀ field values v1 v2 rest,
      ((values.map jsTrim).filter (fun s => s.length > 0)) = v1 :: v2 :: rest →
      buildJqlListClause field (some values) =
        some (field ++ (" IN (".data) ++
          joinSep (", ".data) ((v1 :: v2 :: rest).map quoteJqlLiteral) ++ (")".data))) ∧
    (∀ field values,
      ((values.map jsTrim).filter (fun s => s.length > 0)) = [] →
      buildJqlListClause field (some values) = none) := by
  refine ⟨by decide, by decide, ?_, ?_, ?_⟩
  · intro field values v h
    have hmem : v ∈ (values.map jsTrim).filter (fun s => s.length > 0) := by
      rw [h]
      exact List.mem_singleton_self v
    have hlen := (List.mem_filter.mp hmem).2
    simp only [decide_eq_true_eq] at hlen
    have hv : v ≠ [] := List.length_pos.mp hlen
    simp [buildJqlListClause, h, hv]
  · intro field values v1 v2 rest h
    simp only [buildJqlListClause, Option.getD_some, h]
    rw [if_neg (by simp only [List.length_cons]; omega),
      if_neg (by simp only [List.length_cons]; omega)]
  · intro field values h
    simp [buildJqlListClause, h]

/-- C9 witness: the three general clauses at concrete inputs. -/
theorem C9_jql_list_witness :
    buildJqlListClause ("priority".data) (some [(" High ".data)]) =
      some (("priority".data) ++ (" = ".data) ++ quoteJqlLiteral ("High".data)) ∧
    buildJqlListClause ("key".data) (some [("A-1".data), ("A-2".data)]) =
      some (("key".data) ++ (" IN (".data) ++
        joinSep (", ".data) ([("A-1".data), ("A-2".data)].map quoteJqlLiteral) ++ (")".data)) ∧
    buildJqlListClause ("status".data) (some [(" ".data)]) = none :=
  ⟨(C9_jql_list_amended).2.2.1 ("priority".data) [(" High ".data)] ("High".data) (by decide),
   (C9_jql_list_amended).2.2.2.1 ("key".data) [("A-1".data), ("A-2".data)]
     ("A-1".data) ("A-2".data) [] (by decide),
   (C9_jql_list_amended).2.2.2.2 ("status".data) [(" ".data)] (by decide)⟩

theorem resolveLinkLoop_append (ik tk : Str) (req : List Str)
    (pre rest : List JiraIssueLinkType)
    (h : ∀ u ∈ pre, linkTypeStep ik tk req u = none) :
    resolveLinkLoop ik tk req (pre ++ rest) = resolveLinkLoop ik tk req rest := by
  revert h
  induction pre with
  | nil => intro _; simp
  | cons a as ih =>
    intro h
    rw [List.cons_append, resolveLinkLoop, h a (by simp)]
    exact ih (fun w hw => h w (by simp [hw]))

/-- C8 counterexample: a candidate link type with no name but an outward
label equal to the requested label is skipped entirely, so resolution
fails with the unknown-relation error, although testing the candidate
against the outward label first (as the claim states) would match. -/
theorem C8_counterexample :
    okOf (resolveIssueLinkPayload ("K-1".data) ("K-2".data) ("blocks".data)
      [c8NamelessLt]) = none ∧
    errOf (resolveIssueLinkPayload ("K-1".data) ("K-2".data) ("blocks".data)
      [c8NamelessLt]) =
      some (.err (unknownRelationMessage ("blocks".data) [c8NamelessLt])) ∧
    intersects (labelAliasSet ("blocks".data)) (labelAliasSet ("blocks".data)) = true := by
  exact ⟨by decide, by decide, by decide⟩

/-- C8 (amended): the requested alias set is the normalized key plus the
suffix alias when the key starts with is and is longer than two
characters; candidates are tested in upstream order and the first match
wins, except that a candidate without a truthy name is skipped entirely;
within a named candidate the outward label is tested first (outward
direction, issue on the outward side), then the inward label (inward
direction, sides reversed), then the type name (treated as outward with
the outward label, or the name, as relation). -/
theorem C8_link_resolution_amended (issueKey targetIssueKey rel : Str) :
    (∀ v : Str,
      labelAliasSet v =
        (if ("is".data).isPrefixOf (normalizeLabelForMatch (some v)) ∧
            (normalizeLabelForMatch (some v)).length > 2 then
          [normalizeLabelForMatch (some v), (normalizeLabelForMatch (some v)).drop 2]
        else if normalizeLabelForMatch (some v) = [] then []
        else [normalizeLabelForMatch (some v)])) ∧
    (∀ lt rest, normalizeString lt.name = none →
      resolveLinkLoop issueKey targetIssueKey (labelAliasSet rel) (lt :: rest) =
        resolveLinkLoop issueKey targetIssueKey (labelAliasSet rel) rest) ∧
    (∀ pre lt rest p,
      (∀ u ∈ pre, linkTypeStep issueKey targetIssueKey (labelAliasSet rel) u = none) →
      linkTypeStep issueKey targetIssueKey (labelAliasSet rel) lt = some p →
      resolveIssueLinkPayload issueKey targetIssueKey rel (pre ++ lt :: rest) = .ok p) ∧
    (∀ lt nm o, normalizeString lt.name = some nm → normalizeString lt.outward = some o →
      intersects (labelAliasSet rel) (labelAliasSet o) = true →
      linkTypeStep issueKey targetIssueKey (labelAliasSet rel) lt =
        some { relation := o, linkType := nm, direction := .outward,
               outwardIssueKey := issueKey, inwardIssueKey := targetIssueKey }) ∧
    (∀ lt nm i, normalizeString lt.name = some nm →
      (∀ o, normalizeString lt.outward = some o →
        intersects (labelAliasSet rel) (labelAliasSet o) = false) →
      normalizeString lt.inward = some i →
      intersects (labelAliasSet rel) (labelAliasSet i) = true →
      linkTypeStep issueKey targetIssueKey (labelAliasSet rel) lt =
        some { relation := i, linkType := nm, direction := .inward,
               outwardIssueKey := targetIssueKey, inwardIssueKey := issueKey }) ∧
    (∀ lt nm, normalizeString lt.name = some nm →
      (∀ o, normalizeString lt.outward = some o →
        intersects (labelAliasSet rel) (labelAliasSet o) = false) →
      (∀ i, normalizeString lt.inward = some i →
        intersects (labelAliasSet rel) (labelAliasSet i) = false) →
      intersects (labelAliasSet rel) (labelAliasSet nm) = true →
      linkTypeStep issueKey targetIssueKey (labelAliasSet rel) lt =
        some { relation := (normalizeString lt.outward).getD nm, linkType := nm,
               direction := .outward,
               outwardIssueKey := issueKey, inwardIssueKey := targetIssueKey }) := by
  refine ⟨?_, ?_, ?_, ?_, ?_, ?_⟩
  · intro v
    by_cases hc : ['i', 's'] <+: normalizeLabelForMatch (some v) ∧
        2 < (normalizeLabelForMatch (some v)).length
    · have hne : normalizeLabelForMatch (some v) ≠ [] := by
        intro h0
        rw [h0] at hc
        simp at hc
      have hdne : (normalizeLabelForMatch (some v)).drop 2 ≠ normalizeLabelForMatch (some v) := by
        intro he
        have hlen := congrArg List.length he
        simp only [List.length_drop] at hlen
        omega
      simp [labelAliasSet, hc, hne, hdne]
    · simp [labelAliasSet, hc]
  · intro lt rest h
    simp [resolveLinkLoop, linkTypeStep, h]
  · intro pre lt rest p hpre hstep
    have hloop := resolveLinkLoop_append issueKey targetIssueKey (labelAliasSet rel)
      pre (lt :: rest) hpre
    simp [resolveIssueLinkPayload, hloop, resolveLinkLoop, hstep]
  · intro lt nm o h1 h2 h3
    simp [linkTypeStep, h1, h2, h3]
  · intro lt nm i h1 how h2 h3
    cases houtward : normalizeString lt.outward with
    | none => simp [linkTypeStep, h1, houtward, h2, h3]
    | some o =>
      have hofail := how o houtward
      simp [linkTypeStep, h1, houtward, hofail, h2, h3]
  · intro lt nm h1 how hin h3
    cases houtward : normalizeString lt.outward with
    | none =>
      cases hinward : normalizeString lt.inward with
      | none => simp [linkTypeStep, h1, houtward, hinward, h3]
      | some i =>
        have hifail := hin i hinward
        simp [linkTypeStep, h1, houtward, hinward, hifail, h3]
    | some o =>
      have hofail := how o houtward
      cases hinward : normalizeString lt.inward with
      | none => simp [linkTypeStep, h1, houtward, hofail, hinward, h3]
      | some i =>
        have hifail := hin i hinward
        simp [linkTypeStep, h1, houtward, hofail, hinward, hifail, h3]

/-- C8 witness: the first-match clause at a concrete pair of candidates,
the nameless one skipped and the named one matching on its inward
label. -/
theorem C8_link_resolution_witness :
    resolveIssueLinkPayload ("K-1".data) ("K-2".data) ("is blocked by".data)
      ([c8NamelessLt] ++ c8WLt :: []) =
      .ok { relation := ("is blocked by".data), linkType := ("Blocks".data),
            direction := .inward, outwardIssueKey := ("K-2".data),
            inwardIssueKey := ("K-1".data) } :=
  (C8_link_resolution_amended ("K-1".data) ("K-2".data) ("is blocked by".data)).2.2.1
    [c8NamelessLt] c8WLt []
    { relation := ("is blocked by".data), linkType := ("Blocks".data),
      direction := .inward, outwardIssueKey := ("K-2".data),
      inwardIssueKey := ("K-1".data) }
    (by
      intro u hu
      rw [List.mem_singleton] at hu
      subst hu
      decide)
    (by decide)

theorem lastAssoc_mem {entries : List (Str × JiraVersion)} {key : Str} {v : JiraVersion}
    (h : lastAssoc entries key = some v) : (key, v) ∈ entries := by
  induction entries with
  | nil => simp [lastAssoc] at h
  | cons e rest ih =>
    rcases e with ⟨k, w⟩
    rw [lastAssoc] at h
    cases hr : lastAssoc rest key with
    | some r =>
      rw [hr] at h
      simp at h
      subst h
      exact List.mem_cons_of_mem _ (ih hr)
    | none =>
      rw [hr] at h
      by_cases hk : k = key
      · rw [if_pos hk] at h
        simp at h
        subst h
        subst hk
        exact List.mem_cons_self _ _
      · rw [if_neg hk] at h
        simp at h

theorem find?_append_first {α : Type} (p : α → Bool) (pre rest : List α) (x : α)
    (hpre : ∀ u ∈ pre, p u = false) (hx : p x = true) :
    (pre ++ x :: rest).find? p = some x := by
  revert hpre
  induction pre with
  | nil => intro _; simp [List.find?_cons, hx]
  | cons u us ih =>
    intro hpre
    have hu := hpre u (by simp)
    have ihh := ih (fun w hw => hpre w (by simp [hw]))
    simp [List.find?_cons, hu, ihh]

set_option maxRecDepth 4000 in
/-- C5 counterexample: a write naming the unknown version 9.9 against a
catalog whose only version is 1.0 aborts with an error that lists the
unresolved value but not the valid name 1.0; and a createIssue call whose
priority NotAPriority matches no known value still succeeds, because
priorities are not validated at write time. -/
theorem C5_counterexample :
    resolveVersionIds [c5Version] (some [("9.9".data)]) =
      Except.error (.err (unknownVersionsMessage [("9.9".data)])) ∧
    ¬ List.IsInfix ("1.0".data) (unknownVersionsMessage [("9.9".data)]) ∧
    isOkE (createIssue cfgW bW c5CreateEnv c5Input) = true := by
  refine ⟨rfl, by decide, by decide⟩

/-- C5 (amended): issue-type and version values are resolved against the
known values — an issue type by the first catalog entry whose trimmed id
equals the raw request or whose trimmed name matches case-insensitively,
failing with the full list of valid type names attached; a version by
exact id with precedence over case-insensitive name, an unresolved value
aborting with the unresolved values listed (not the valid catalog); a
resolution failure aborts the whole createIssue write.  Priority is not
validated: an all-digit value is sent as an id and anything else as a
name, and no priority value can abort the write. -/
theorem C5_write_resolution_amended :
    (∀ (project : JiraProjectResponse) pre it rest (pk req tid : Str),
      project.issueTypes = some (pre ++ it :: rest) →
      (∀ u ∈ pre, issueTypeMatches req u = false) →
      issueTypeMatches req it = true → it.id = some tid → tid ≠ [] →
      resolveIssueTypeId project pk req = .ok tid) ∧
    (∀ (project : JiraProjectResponse) (pk req : Str),
      (∀ u ∈ project.issueTypes.getD [], issueTypeMatches req u = false) →
      resolveIssueTypeId project pk req =
        .error (.err (unknownIssueTypeMessage pk req (project.issueTypes.getD [])))) ∧
    (∀ versions (value : Str) v, lastAssoc (versionsById versions) value = some v →
      resolveOneVersion versions value = some value) ∧
    (∀ versions (value : Str) v, lastAssoc (versionsById versions) value = none →
      lastAssoc (versionsByName versions) (lowerStr value) = some v →
      resolveOneVersion versions value = truthyStr v.id) ∧
    (∀ versions (value : Str), jsTrim value = value → value ≠ [] →
      resolveOneVersion versions value = none →
      resolveVersionIds versions (some [value]) =
        .error (.err (unknownVersionsMessage [value]))) ∧
    (∀ versions (value i : Str), jsTrim value = value → value ≠ [] →
      resolveOneVersion versions value = some i →
      resolveVersionIds versions (some [value]) = .ok [i]) ∧
    (∀ p : Str, jsTrim p ≠ [] → isAllDigits (jsTrim p) = true →
      buildPriorityPayload (some p) = some (.byId (jsTrim p))) ∧
    (∀ p : Str, jsTrim p ≠ [] → isAllDigits (jsTrim p) = false →
      buildPriorityPayload (some p) = some (.byName (jsTrim p))) ∧
    (∀ cfg B env input e,
      resolveIssueTypeId env.project input.projectKey input.issueType = .error e →
      createIssue cfg B env input = .error e) ∧
    (∀ cfg B env input (tid : Str) e,
      resolveIssueTypeId env.project input.projectKey input.issueType = Except.ok tid →
      resolveVersionIds env.versions input.fixVersions = .error e →
      createIssue cfg B env input = .error e) := by
  refine ⟨?_, ?_, ?_, ?_, ?_, ?_, ?_, ?_, ?_, ?_⟩
  · intro project pre it rest pk req tid hproj hpre hmatch hid htid
    have hfind : (pre ++ it :: rest).find? (fun u => issueTypeMatches req u) = some it :=
      find?_append_first _ pre rest it hpre hmatch
    simp [resolveIssueTypeId, hproj, hfind, hid, htid]
  · intro project pk req h
    have hfind : (project.issueTypes.getD []).find? (fun u => issueTypeMatches req u) = none :=
      List.find?_eq_none.mpr (fun x hx => by simp [h x hx])
    simp [resolveIssueTypeId, hfind]
  · intro versions value v hlast
    have hmem := lastAssoc_mem hlast
    rcases List.mem_filterMap.mp hmem with ⟨a, _, hf⟩
    cases hida : a.id with
    | none => rw [hida] at hf; simp at hf
    | some i =>
      rw [hida] at hf
      by_cases hi : i = []
      · simp [hi] at hf
      · simp [hi] at hf
        obtain ⟨hiv, hav⟩ := hf
        subst hiv
        subst hav
        simp [resolveOneVersion, hlast, hida, truthyStr, hi]
  · intro versions value v h1 h2
    simp [resolveOneVersion, h1, h2, truthyStr]
  · intro versions value htrim hne hres
    have hpos : 0 < value.length := List.length_pos.mpr hne
    have key : (((((some [value] : Option (List Str))).getD []).map jsTrim).filter
        (fun s => s.length > 0)) = [value] := by
      simp [List.filter, htrim, hpos]
    simp only [resolveVersionIds, key]
    simp [resolveVersionsAcc, hres]
  · intro versions value i htrim hne hres
    have hpos : 0 < value.length := List.length_pos.mpr hne
    have key : (((((some [value] : Option (List Str))).getD []).map jsTrim).filter
        (fun s => s.length > 0)) = [value] := by
      simp [List.filter, htrim, hpos]
    simp only [resolveVersionIds, key]
    simp [resolveVersionsAcc, hres]
  · intro p h1 h2
    simp [buildPriorityPayload, h1, h2]
  · intro p h1 h2
    simp [buildPriorityPayload, h1, h2]
  · intro cfg B env input e h
    simp only [createIssue, h]
  · intro cfg B env input tid e h1 h2
    simp only [createIssue, h1, h2]

/-- C5 witness: every clause of the amended theorem exercised at
concrete catalogs and inputs. -/
theorem C5_write_resolution_witness :
    resolveIssueTypeId prjW ("PRJ".data) ("bug".data) = .ok ("10".data) ∧
    resolveIssueTypeId prjW ("PRJ".data) ("Story".data) =
      .error (.err (unknownIssueTypeMessage ("PRJ".data) ("Story".data)
        (prjW.issueTypes.getD []))) ∧
    resolveOneVersion [c5Version] ("100".data) = some ("100".data) ∧
    resolveOneVersion [c5Version] ("1.0".data) = truthyStr c5Version.id ∧
    resolveVersionIds [c5Version] (some [("9.9".data)]) =
      .error (.err (unknownVersionsMessage [("9.9".data)])) ∧
    resolveVersionIds [c5Version] (some [("1.0".data)]) = .ok [("100".data)] ∧
    buildPriorityPayload (some ("123".data)) = some (.byId (jsTrim ("123".data))) ∧
    buildPriorityPayload (some ("High".data)) = some (.byName (jsTrim ("High".data))) ∧
    createIssue cfgW bW c5CreateEnv c5InputBadType =
      .error (.err (unknownIssueTypeMessage ("PRJ".data) ("Story".data)
        (prjW.issueTypes.getD []))) ∧
    createIssue cfgW bW c5CreateEnv c5InputBadVersion =
      .error (.err (unknownVersionsMessage [("9.9".data)])) := by
  refine ⟨?_, ?_, ?_, ?_, ?_, ?_, ?_, ?_, ?_, ?_⟩
  · exact C5_write_resolution_amended.1 prjW [] itBugW [] ("PRJ".data) ("bug".data)
      ("10".data) rfl (by intro u hu; simp at hu) (by decide) rfl (by decide)
  · exact C5_write_resolution_amended.2.1 prjW ("PRJ".data) ("Story".data)
      (by intro u hu; simp [prjW] at hu; subst hu; decide)
  · exact C5_write_resolution_amended.2.2.1 [c5Version] ("100".data) c5Version (by decide)
  · exact C5_write_resolution_amended.2.2.2.1 [c5Version] ("1.0".data) c5Version
      (by decide) (by decide)
  · exact C5_write_resolution_amended.2.2.2.2.1 [c5Version] ("9.9".data)
      (by decide) (by decide) (by decide)
  · exact C5_write_resolution_amended.2.2.2.2.2.1 [c5Version] ("1.0".data) ("100".data)
      (by decide) (by decide) (by decide)
  · exact C5_write_resolution_amended.2.2.2.2.2.2.1 ("123".data) (by decide) (by decide)
  · exact C5_write_resolution_amended.2.2.2.2.2.2.2.1 ("High".data) (by decide) (by decide)
  · exact C5_write_resolution_amended.2.2.2.2.2.2.2.2.1 cfgW bW c5CreateEnv c5InputBadType
      (.err (unknownIssueTypeMessage ("PRJ".data) ("Story".data) (prjW.issueTypes.getD [])))
      rfl
  · exact C5_write_resolution_amended.2.2.2.2.2.2.2.2.2 cfgW bW c5CreateEnv c5InputBadVersion
      ("10".data) (.err (unknownVersionsMessage [("9.9".data)])) rfl rfl

/-- C10: whenever the resolved sprint state, trimmed and lowercased,
equals closed, assignIssueToSprint fails with the error naming the
sprint id and name, and its request log is empty — the sprint-assignment
request is never issued, so sprint membership is unchanged. -/
theorem C10_closed_sprint_refused (cfg : JiraConfig) (B : JsBuiltins) (env : AssignEnv)
    (input : AssignIssueToSprintInput) (sprint : SprintSummary)
    (hk : jsTrim input.issueKey ≠ [])
    (hres : resolveSprintForAssignment env input = .ok sprint)
    (hclosed : lowerStr (jsTrim sprint.state) = ("closed".data)) :
    assignIssueToSprint cfg B env input =
      (.error (.err (closedSprintMessage sprint)), []) := by
  simp [assignIssueToSprint, hk, hres, hclosed]

/-- C10 witness: a by-id assignment against a sprint whose upstream state
is CLOSED with a trailing space. -/
theorem C10_closed_sprint_refused_witness :
    assignIssueToSprint cfgW bW c10Env c10Input =
      (.error (.err (closedSprintMessage c10Resolved)), []) :=
  C10_closed_sprint_refused cfgW bW c10Env c10Input c10Resolved (by decide) rfl (by decide)

/-- C4 counterexample: an enhanced response of exactly fifty raw items
carrying a non-empty continuation token is truncated with the notice,
although the claim promises truncated false and a null notice for any
response of fifty or fewer raw items. -/
theorem C4_counterexample :
    (match c4Env.enhanced with
     | .ok r => (r.issues.getD []).length
     | .error _ => 0) = 50 ∧
    (okOf (searchIssuesByJql c4Env ("project = X".data))).map
      (fun r => (r.issues.length, r.truncated, r.notice)) =
      some (50, true, some JQL_RESULTS_TRUNCATED_NOTICE) := by
  exact ⟨by decide, by decide⟩

/-- C4 (amended): a strict query whose enhanced response yields fifty-one
raw items returns exactly fifty items, truncated true and the fixed
notice; a response of fifty or fewer raw items returns truncated false
and a null notice provided its continuation token is absent or empty;
the legacy branch behaves the same with the reported total at most fifty
in place of the token condition. -/
theorem C4_truncation_amended (env : SearchEnv) (jqlRaw jqlS : Str)
    (hjql : buildStrictJql jqlRaw = .ok jqlS) :
    (∀ resp, env.enhanced = .ok resp → (resp.issues.getD []).length = 51 →
      searchIssuesByJql env jqlRaw =
        .ok { jql := jqlS,
              issues := ((resp.issues.getD []).take 50).map toJqlIssueListItem,
              truncated := true, notice := some JQL_RESULTS_TRUNCATED_NOTICE,
              mode := .enhanced } ∧
      (((resp.issues.getD []).take 50).map toJqlIssueListItem).length = 50) ∧
    (∀ resp, env.enhanced = .ok resp → (resp.issues.getD []).length ≤ 50 →
      (∀ t, resp.nextPageToken = some t → t = []) →
      searchIssuesByJql env jqlRaw =
        .ok { jql := jqlS,
              issues := ((resp.issues.getD []).take 50).map toJqlIssueListItem,
              truncated := false, notice := none, mode := .enhanced } ∧
      (((resp.issues.getD []).take 50).map toJqlIssueListItem).length =
        (resp.issues.getD []).length) ∧
    (∀ e resp, env.enhanced = .error e → is404 e = true → env.legacy = .ok resp →
      (resp.issues.getD []).length = 51 →
      searchIssuesByJql env jqlRaw =
        .ok { jql := jqlS,
              issues := ((resp.issues.getD []).take 50).map toJqlIssueListItem,
              truncated := true, notice := some JQL_RESULTS_TRUNCATED_NOTICE,
              mode := .legacy }) ∧
    (∀ e resp, env.enhanced = .error e → is404 e = true → env.legacy = .ok resp →
      (resp.issues.getD []).length ≤ 50 → resp.total.getD 0 ≤ 50 →
      searchIssuesByJql env jqlRaw =
        .ok { jql := jqlS,
              issues := ((resp.issues.getD []).take 50).map toJqlIssueListItem,
              truncated := false, notice := none, mode := .legacy }) := by
  refine ⟨?_, ?_, ?_, ?_⟩
  · intro resp hresp hlen
    have htr : (decide ((resp.issues.getD []).length > 50) ||
        (match resp.nextPageToken with
         | some t => !t.isEmpty
         | none => false)) = true := by
      rw [hlen]
      simp
    refine ⟨?_, ?_⟩
    · simp only [searchIssuesByJql, hjql, hresp, htr]
      simp
    · simp [List.length_take, hlen]
  · intro resp hresp hlen htok
    have htr : (decide ((resp.issues.getD []).length > 50) ||
        (match resp.nextPageToken with
         | some t => !t.isEmpty
         | none => false)) = false := by
      have h1 : decide ((resp.issues.getD []).length > 50) = false := by
        simp
        omega
      have h2 : (match resp.nextPageToken with
         | some t => !t.isEmpty
         | none => false) = false := by
        cases ht : resp.nextPageToken with
        | none => rfl
        | some t =>
          have := htok t ht
          subst this
          rfl
      rw [h1, h2]
      rfl
    refine ⟨?_, ?_⟩
    · simp only [searchIssuesByJql, hjql, hresp, htr]
      simp
    · rw [List.length_map, List.length_take]
      omega
  · intro e resp herr h404 hresp hlen
    have htr : (decide (resp.total.getD 0 > 50) ||
        decide ((resp.issues.getD []).length > 50)) = true := by
      rw [hlen]
      simp
    simp only [searchIssuesByJql, hjql, herr, h404, if_true, hresp, htr]
  · intro e resp herr h404 hresp hlen htot
    have htr : (decide (resp.total.getD 0 > 50) ||
        decide ((resp.issues.getD []).length > 50)) = false := by
      have h1 : decide (resp.total.getD 0 > 50) = false := by
        simp
        omega
      have h2 : decide ((resp.issues.getD []).length > 50) = false := by
        simp
        omega
      rw [h1, h2]
      rfl
    simp only [searchIssuesByJql, hjql, herr, h404, if_true, hresp, htr]
    simp

/-- C4 witness: the four clauses at concrete environments — fifty-one
items enhanced, fifty items with an empty token enhanced, and the two
legacy counterparts. -/
theorem C4_truncation_witness :
    ((searchIssuesByJql c4Env51 ("project = X".data)).map
      (fun r => (r.truncated, r.notice, r.mode))) =
      .ok (true, some JQL_RESULTS_TRUNCATED_NOTICE, SearchMode.enhanced) ∧
    ((searchIssuesByJql
        { enhanced := .ok { issues := some [issueW], nextPageToken := none },
          legacy := .error (.err ("unused".data)) } ("project = X".data)).map
      (fun r => (r.truncated, r.notice, r.mode))) =
      .ok (false, none, SearchMode.enhanced) ∧
    ((searchIssuesByJql c4EnvLegacy ("project = X".data)).map
      (fun r => (r.truncated, r.notice, r.mode))) =
      .ok (false, none, SearchMode.legacy) := by
  have h1 := (C4_truncation_amended c4Env51 ("project = X".data)
    ("project = X ORDER BY updated DESC".data) rfl).1
    { issues := some (List.replicate 51 issueW), nextPageToken := none } rfl (by decide)
  have h2 := ((C4_truncation_amended
    { enhanced := .ok { issues := some [issueW], nextPageToken := none },
      legacy := .error (.err ("unused".data)) } ("project = X".data)
    ("project = X ORDER BY updated DESC".data) rfl).2.1
    { issues := some [issueW], nextPageToken := none } rfl (by decide)
    (by intro t ht; simp at ht))
  have h3 := ((C4_truncation_amended c4EnvLegacy ("project = X".data)
    ("project = X ORDER BY updated DESC".data) rfl).2.2.2
    (.api 404 ("POST /rest/api/3/search/jql failed with 404 Not Found".data) ([]))
    { issues := some [issueW, issueW], total := some 2, startAt := some 0 }
    rfl rfl rfl (by decide) (by decide))
  rw [h1.1, h2.1, h3]
  refine ⟨rfl, rfl, rfl⟩

/-- C2: for every issue (environment) and every requested status whose
trimmed value matches none of the transitions, tryTransitionIssue
returns the structured applied-false result with a reason and never
throws (the posted-transition outcome is unconstrained, so no transition
request is even consulted), and an enclosing createIssue call that
requested that status still succeeds, returning the created issue
together with that transition result. -/
theorem C2_nonfatal_transition (cfg : JiraConfig) (B : JsBuiltins) (env : CreateEnv)
    (input : CreateIssueInput) (s tid : Str) (fvs avs : List Str)
    (hstatus : input.status = some s) (hsne : s ≠ [])
    (htrim : jsTrim s ≠ [])
    (hnomatch : ∀ t ∈ env.transitions, matchesTransition (lowerStr (jsTrim s)) t = false)
    (hit : resolveIssueTypeId env.project input.projectKey input.issueType = .ok tid)
    (hfv : resolveVersionIds env.versions input.fixVersions = .ok fvs)
    (hav : resolveVersionIds env.versions input.affectedVersions = .ok avs)
    (hdesc : input.description = none)
    (hsev : input.severity = none) :
    tryTransitionIssue env.transitions env.transitionPost s =
      .ok (noMatchResult (jsTrim s) env.transitions) ∧
    createIssue cfg B env input =
      .ok { issue := getIssue cfg B env.issueResponse env.commentStore
              { skipComments := none, loadOnlyLast3Comments := none,
                descriptionFormat := input.descriptionFormat },
            transition := some (noMatchResult (jsTrim s) env.transitions) } := by
  have hfind : env.transitions.find?
      (fun t => matchesTransition (lowerStr (jsTrim s)) t) = none :=
    List.find?_eq_none.mpr (fun x hx => by simp [hnomatch x hx])
  have htry : tryTransitionIssue env.transitions env.transitionPost s =
      .ok (noMatchResult (jsTrim s) env.transitions) := by
    simp only [tryTransitionIssue, if_neg htrim, hfind]
  refine ⟨htry, ?_⟩
  simp only [createIssue, hit, hfv, hav, hdesc, hsev]
  simp [buildSeverityPayload, hstatus, hsne, htry, Except.map]

/-- C2 witness: the end-to-end scenario — create with summary Checkout
fails, no description, requested status In Progress, no matching
transition on the fresh issue. -/
theorem C2_nonfatal_transition_witness :
    tryTransitionIssue c5CreateEnv.transitions c5CreateEnv.transitionPost
      ("In Progress".data) =
      .ok (noMatchResult (jsTrim ("In Progress".data)) c5CreateEnv.transitions) ∧
    createIssue cfgW bW c5CreateEnv c2Input =
      .ok { issue := getIssue cfgW bW c5CreateEnv.issueResponse c5CreateEnv.commentStore
              { skipComments := none, loadOnlyLast3Comments := none,
                descriptionFormat := c2Input.descriptionFormat },
            transition := some (noMatchResult (jsTrim ("In Progress".data))
              c5CreateEnv.transitions) } :=
  C2_nonfatal_transition cfgW bW c5CreateEnv c2Input ("In Progress".data) ("10".data)
    [] [] rfl (by decide) (by decide)
    (by intro t ht; simp [c5CreateEnv] at ht) rfl rfl rfl rfl rfl

/-- C7: every search call attempts the enhanced endpoint first; it is
served enhanced whenever that endpoint answers, falls back to the legacy
endpoint exactly when the enhanced attempt fails with a 404-class
upstream API error, and propagates any other failure; no mode flag
persists — a call made after one that fell back still tries enhanced
first, its outcome depending only on its own environment.  The last
three conjuncts state the same for the strict searchIssuesByJql. -/
theorem C7_search_fallback (cfg : JiraConfig) (B : JsBuiltins)
    (input : SearchIssuesInput) (jql0 : Str)
    (hjql : buildJql cfg input = .ok jql0) :
    (∀ (env : SearchEnv) resp, env.enhanced = .ok resp →
      searchIssues cfg B env input =
        .ok { jql := jql0,
              issues := (resp.issues.getD []).map
                (fun i => toFocusedIssue cfg B i [] defaultCommentsMeta none),
              nextPageToken := resp.nextPageToken, mode := .enhanced }) ∧
    (∀ (env : SearchEnv) e lresp startAt,
      env.enhanced = .error e → is404 e = true →
      parseNextPageToken input.nextPageToken = .ok startAt →
      env.legacy = .ok lresp →
      searchIssues cfg B env input =
        .ok { jql := jql0,
              issues := (lresp.issues.getD []).map
                (fun i => toFocusedIssue cfg B i [] defaultCommentsMeta none),
              nextPageToken :=
                if lresp.startAt.getD 0 + ((lresp.issues.getD []).length : Int) <
                    lresp.total.getD 0 then
                  some (intToStr (lresp.startAt.getD 0 +
                    ((lresp.issues.getD []).length : Int)))
                else none,
              mode := .legacy }) ∧
    (∀ (env : SearchEnv) e, env.enhanced = .error e → is404 e = false →
      searchIssues cfg B env input = .error e) ∧
    (∀ (env1 env2 : SearchEnv) e lresp startAt resp2,
      env1.enhanced = .error e → is404 e = true →
      parseNextPageToken input.nextPageToken = .ok startAt →
      env1.legacy = .ok lresp → env2.enhanced = .ok resp2 →
      ((searchIssues cfg B env1 input).map (fun r => r.mode)) = .ok .legacy ∧
      ((searchIssues cfg B env2 input).map (fun r => r.mode)) = .ok .enhanced) ∧
    (∀ (env : SearchEnv) (jqlRaw jqlS : Str) resp, buildStrictJql jqlRaw = .ok jqlS →
      env.enhanced = .ok resp →
      ((searchIssuesByJql env jqlRaw).map (fun r => r.mode)) = .ok .enhanced) ∧
    (∀ (env : SearchEnv) (jqlRaw jqlS : Str) e lresp, buildStrictJql jqlRaw = .ok jqlS →
      env.enhanced = .error e → is404 e = true → env.legacy = .ok lresp →
      ((searchIssuesByJql env jqlRaw).map (fun r => r.mode)) = .ok .legacy) ∧
    (∀ (env : SearchEnv) (jqlRaw jqlS : Str) e, buildStrictJql jqlRaw = .ok jqlS →
      env.enhanced = .error e → is404 e = false →
      searchIssuesByJql env jqlRaw = .error e) := by
  have henh : ∀ (env : SearchEnv) resp, env.enhanced = .ok resp →
      searchIssues cfg B env input =
        .ok { jql := jql0,
              issues := (resp.issues.getD []).map
                (fun i => toFocusedIssue cfg B i [] defaultCommentsMeta none),
              nextPageToken := resp.nextPageToken, mode := .enhanced } := by
    intro env resp hresp
    simp only [searchIssues, hjql, hresp]
  have hleg : ∀ (env : SearchEnv) e lresp startAt,
      env.enhanced = .error e → is404 e = true →
      parseNextPageToken input.nextPageToken = .ok startAt →
      env.legacy = .ok lresp →
      searchIssues cfg B env input =
        .ok { jql := jql0,
              issues := (lresp.issues.getD []).map
                (fun i => toFocusedIssue cfg B i [] defaultCommentsMeta none),
              nextPageToken :=
                if lresp.startAt.getD 0 + ((lresp.issues.getD []).length : Int) <
                    lresp.total.getD 0 then
                  some (intToStr (lresp.startAt.getD 0 +
                    ((lresp.issues.getD []).length : Int)))
                else none,
              mode := .legacy } := by
    intro env e lresp startAt herr h404 hstart hlresp
    simp only [searchIssues, hjql, herr, h404, if_true, hstart, hlresp]
    simp [List.length_map]
  refine ⟨henh, hleg, ?_, ?_, ?_, ?_, ?_⟩
  · intro env e herr h404
    simp [searchIssues, hjql, herr, h404]
  · intro env1 env2 e lresp startAt resp2 herr h404 hstart hlresp hresp2
    constructor
    · rw [hleg env1 e lresp startAt herr h404 hstart hlresp]
      rfl
    · rw [henh env2 resp2 hresp2]
      rfl
  · intro env jqlRaw jqlS resp hs hresp
    simp only [searchIssuesByJql, hs, hresp]
    rfl
  · intro env jqlRaw jqlS e lresp hs herr h404 hlresp
    simp only [searchIssuesByJql, hs, herr, h404, if_true, hlresp]
    rfl
  · intro env jqlRaw jqlS e hs herr h404
    simp [searchIssuesByJql, hs, herr, h404]

/-- C7 witness: a first call served legacy after a 404, a second call
with a healthy enhanced endpoint served enhanced, and a 500 propagated
unchanged, for both search entry points. -/
theorem C7_search_fallback_witness :
    ((searchIssues cfgW bW c7EnvLegacy c7Input).map (fun r => r.mode)) =
      .ok SearchMode.legacy ∧
    ((searchIssues cfgW bW c7EnvEnhanced c7Input).map (fun r => r.mode)) =
      .ok SearchMode.enhanced ∧
    searchIssues cfgW bW c7EnvBroken c7Input =
      .error (.api 500
        ("POST /rest/api/3/search/jql failed with 500 Internal Server Error".data) ([])) ∧
    searchIssuesByJql c7EnvBroken ("project = PRJ".data) =
      .error (.api 500
        ("POST /rest/api/3/search/jql failed with 500 Internal Server Error".data) ([])) := by
  have hb := C7_search_fallback cfgW bW c7Input
    ("project = \"PRJ\" ORDER BY updated DESC".data) rfl
  refine ⟨?_, ?_, ?_, ?_⟩
  · exact (hb.2.2.2.1 c7EnvLegacy c7EnvEnhanced
      (.api 404 ("POST /rest/api/3/search/jql failed with 404 Not Found".data) ([]))
      { issues := some [issueW], total := some 1, startAt := some 0 } 0
      { issues := some [issueW], nextPageToken := none }
      rfl rfl rfl rfl rfl).1
  · exact (hb.2.2.2.1 c7EnvLegacy c7EnvEnhanced
      (.api 404 ("POST /rest/api/3/search/jql failed with 404 Not Found".data) ([]))
      { issues := some [issueW], total := some 1, startAt := some 0 } 0
      { issues := some [issueW], nextPageToken := none }
      rfl rfl rfl rfl rfl).2
  · exact hb.2.2.1 c7EnvBroken
      (.api 500 ("POST /rest/api/3/search/jql failed with 500 Internal Server Error".data) ([]))
      rfl rfl
  · exact hb.2.2.2.2.2.2 c7EnvBroken ("project = PRJ".data)
      ("project = PRJ ORDER BY updated DESC".data)
      (.api 500 ("POST /rest/api/3/search/jql failed with 500 Internal Server Error".data) ([]))
      rfl rfl rfl

/-- C3 witness: the two branches at the empty store and at a concrete
five-comment store. -/
theorem C3_comment_loader_last3_witness :
    fetchLastIssueComments ([] : List JiraCommentResponse) 3 =
      (([], { mode := .last_3, total := 0, returned := 0 }), [(0, 1)]) ∧
    fetchLastIssueComments c3StoreW 3 =
      ((((c3StoreW.drop (c3StoreW.length - 3)).take 3).map toIssueComment,
        { mode := .last_3, total := c3StoreW.length, returned := min c3StoreW.length 3 }),
       [(0, 1), (c3StoreW.length - 3, 3)]) :=
  ⟨(C3_comment_loader_last3 []).1 rfl,
   (C3_comment_loader_last3 c3StoreW).2.1 (by decide)⟩

end JiraMcp
